import Mathlib

/-!
Shallow embedding of the moto in-memory backends exercised by the spec:
the CodePipeline backend (moto/codepipeline/models.py), the SES backend
(moto/ses/models.py) and the EC2 network-ACL backend
(moto/ec2/_models/network_acls.py).

Python dicts are modelled as insertion-ordered association lists; every
backend method is a state-passing function returning the raised error (if
any) together with the post-call state, so that partial mutation before a
raise is representable exactly as in the source.
-/

namespace Moto

/-- moto.core ACCOUNT_ID (the mock's fixed default AWS account id). -/
def ACCOUNT_ID : String := "123456789012"

instance exceptDecEq {ε α : Type} [DecidableEq ε] [DecidableEq α] :
    DecidableEq (Except ε α) := fun x y =>
  match x, y with
  | .ok a, .ok b =>
    if h : a = b then isTrue (h ▸ rfl) else isFalse (fun hc => h (Except.ok.inj hc))
  | .error a, .error b =>
    if h : a = b then isTrue (h ▸ rfl)
    else isFalse (fun hc => h (Except.error.inj hc))
  | .ok _, .error _ => isFalse (fun hc => Except.noConfusion hc)
  | .error _, .ok _ => isFalse (fun hc => Except.noConfusion hc)

/-- Python d.get(k): first binding of k in an insertion-ordered dict. -/
def dictLookup {α : Type} (d : List (String × α)) (k : String) : Option α :=
  match d with
  | [] => none
  | (k2, v) :: rest => if k2 = k then some v else dictLookup rest k

/-- Python d[k] = v: replace in place when the key is present (keeping its
position, as dicts preserve insertion order), append otherwise. -/
def dictInsert {α : Type} (d : List (String × α)) (k : String) (v : α) :
    List (String × α) :=
  match d with
  | [] => [(k, v)]
  | (k2, v2) :: rest =>
    if k2 = k then (k2, v) :: rest else (k2, v2) :: dictInsert rest k v

/-- Python d.pop(k, None): drop the binding of k when present. -/
def dictPop {α : Type} (d : List (String × α)) (k : String) : List (String × α) :=
  match d with
  | [] => []
  | (k2, v2) :: rest => if k2 = k then rest else (k2, v2) :: dictPop rest k

/-- Python s.startswith(pre), character by character. -/
def pyStartsWith (s pre : String) : Bool :=
  pre.data.isPrefixOf s.data

/-- Stable insert for sortOn: x goes after every element whose key is ≤ its own. -/
def insertSorted {α : Type} (f : α → String) (x : α) : List α → List α
  | [] => [x]
  | y :: ys => if f y ≤ f x then y :: insertSorted f x ys else x :: y :: ys

/-- Python sorted(l, key=f): stable sort by a string key. -/
def sortOn {α : Type} (f : α → String) (l : List α) : List α :=
  l.foldl (fun acc x => insertSorted f x acc) []

/-! ## CodePipeline data model (moto/codepipeline/models.py) -/

/-- One tag dict as the API passes it: keys "key" and "value". -/
structure Tag where
  key : String
  value : String
deriving DecidableEq, Repr

/-- One action dict inside a stage. The four fields that
CodePipeline.add_default_values may fill are kept as Option (none = key
absent from the dict); the action's remaining keys (name, actionTypeId,
...) are carried opaquely in rest since no operation reads them. -/
structure Action where
  runOrder : Option Nat
  configuration : Option (List (String × String))
  outputArtifacts : Option (List String)
  inputArtifacts : Option (List String)
  rest : List (String × String)
deriving DecidableEq, Repr

/-- One stage dict: a name and its actions. -/
structure Stage where
  name : String
  actions : List Action
deriving DecidableEq, Repr

/-- The pipeline declaration dict passed to create/update. version is
Option: absent until the backend writes it. -/
structure Pipeline where
  name : String
  roleArn : String
  stages : List Stage
  version : Option Nat
deriving DecidableEq, Repr

/-- CodePipeline.add_default_values on one action dict: each of the four
optional keys is written only when absent. -/
def fillAction (a : Action) : Action :=
  let a1 := if a.runOrder = none then { a with runOrder := some 1 } else a
  let a2 :=
    if a1.configuration = none then { a1 with configuration := some [] } else a1
  let a3 :=
    if a2.outputArtifacts = none then { a2 with outputArtifacts := some [] } else a2
  if a3.inputArtifacts = none then { a3 with inputArtifacts := some [] } else a3

/-- CodePipeline.add_default_values: fills defaults into every action of
every stage (the same method runs on create and on update). -/
def add_default_values (p : Pipeline) : Pipeline :=
  { p with
    stages := p.stages.map fun st => { st with actions := st.actions.map fillAction } }

/-- The stored entity (class CodePipeline): the pipeline dict, the tags
dict, and the generated metadata (arn plus two timestamps, modelled as
abstract clock readings). -/
structure CodePipeline where
  pipeline : Pipeline
  tags : List (String × String)
  arn : String
  created : Nat
  updated : Nat
deriving DecidableEq, Repr

/-- The arn built in CodePipeline.__init__. -/
def pipelineArn (region name : String) : String :=
  "arn:aws:codepipeline:" ++ region ++ ":" ++ ACCOUNT_ID ++ ":" ++ name

/-- CodePipeline.__init__: sets version to 1, fills defaults, starts with
no tags, and records arn and creation/update timestamps. -/
def CodePipeline.init (region : String) (now : Nat) (p : Pipeline) : CodePipeline :=
  { pipeline := add_default_values { p with version := some 1 }
    tags := []
    arn := pipelineArn region p.name
    created := now
    updated := now }

/-- The exceptions moto/codepipeline raises (plus Python KeyError, reachable
only from a stored pipeline dict missing its version key). -/
inductive CPError where
  | InvalidStructureException (msg : String)
  | PipelineNotFoundException (msg : String)
  | ResourceNotFoundException (msg : String)
  | InvalidTagsException (msg : String)
  | TooManyTagsException (arn : String)
  | KeyError (key : String)
deriving DecidableEq, Repr

/-- CodePipeline.validate_tags: first every tag key is screened for the
reserved "aws:" system prefix, then the count ceiling of 50 is checked
against the size the tags dict would at most reach. -/
def validate_tags (cp : CodePipeline) (tags : List Tag) : Option CPError :=
  match tags.find? (fun t => pyStartsWith t.key "aws:") with
  | some _ =>
    some (.InvalidTagsException
      ("Not allowed to modify system tags. System tags start with 'aws:'. " ++
        "msg=[Caller is an end user and not allowed to mutate system tags]"))
  | none =>
    if cp.tags.length + tags.length > 50 then some (.TooManyTagsException cp.arn)
    else none

/-- The CodePipelineBackend state: the pipelines store, the region, and
(modelled from the spec) the IAM collaborator it consults.

roles is Modelled from the spec: the IAM backend (moto/iam, not in src/) is
the external collaborator create_pipeline queries; per the spec the check
inspects the role policy document's principal list, so a role is a pair of
its arn and the service principals its assume-role policy trusts. -/
structure CodePipelineBackend where
  pipelines : List (String × CodePipeline)
  region : String
  roles : List (String × List String)
deriving DecidableEq, Repr

/-- The role-trust check inside create_pipeline: the role must exist and
its first policy statement's principal services must include
codepipeline.amazonaws.com (an IAMNotFoundException is caught and mapped
to the same structural error as an untrusted role). -/
def roleTrusted (roles : List (String × List String)) (roleArn : String) : Bool :=
  match dictLookup roles roleArn with
  | none => false
  | some principals => principals.contains "codepipeline.amazonaws.com"

/-- Python tags dict update with a list of tag dicts, in list order. -/
def tagsUpdate (d : List (String × String)) (tags : List Tag) :
    List (String × String) :=
  tags.foldl (fun acc t => dictInsert acc t.key t.value) d

/-- CodePipelineBackend.create_pipeline. Mutation order follows the source:
the already-exists, role-trust and stage-count checks run before anything
is stored; then the entity is committed to the pipelines store; only then
are tags validated and attached. -/
def create_pipeline (now : Nat) (p : Pipeline) (tags : List Tag)
    (s : CodePipelineBackend) :
    Except CPError (Pipeline × List Tag) × CodePipelineBackend :=
  if (dictLookup s.pipelines p.name).isSome then
    (.error (.InvalidStructureException
      ("A pipeline with the name '" ++ p.name ++ "' already exists in account '" ++
        ACCOUNT_ID ++ "'")), s)
  else if ¬ roleTrusted s.roles p.roleArn then
    (.error (.InvalidStructureException
      ("CodePipeline is not authorized to perform AssumeRole on role " ++ p.roleArn)),
      s)
  else if p.stages.length < 2 then
    (.error (.InvalidStructureException
      ("Pipeline has only 1 stage(s). There should be a minimum of 2 stages in " ++
        "a pipeline")), s)
  else
    let cp := CodePipeline.init s.region now p
    let s1 := { s with pipelines := dictInsert s.pipelines p.name cp }
    if ¬ tags.isEmpty then
      match validate_tags cp tags with
      | some e => (.error e, s1)
      | none =>
        let cp2 := { cp with tags := tagsUpdate cp.tags tags }
        (.ok (cp.pipeline, sortOn Tag.key tags),
          { s1 with pipelines := dictInsert s1.pipelines p.name cp2 })
    else
      (.ok (cp.pipeline, sortOn Tag.key tags), s1)

/-- CodePipelineBackend.get_pipeline: the stored dict plus metadata. -/
def get_pipeline (name : String) (s : CodePipelineBackend) :
    Except CPError (Pipeline × String × Nat × Nat) × CodePipelineBackend :=
  match dictLookup s.pipelines name with
  | none =>
    (.error (.PipelineNotFoundException
      ("Account '" ++ ACCOUNT_ID ++ "' does not have a pipeline with name '" ++
        name ++ "'")), s)
  | some cp => (.ok (cp.pipeline, cp.arn, cp.created, cp.updated), s)

/-- CodePipelineBackend.update_pipeline: looks the entity up by the
payload's name, bumps the version (read from the stored dict), refreshes
the updated timestamp and stores the defaulted new payload. -/
def update_pipeline (now : Nat) (p : Pipeline) (s : CodePipelineBackend) :
    Except CPError Pipeline × CodePipelineBackend :=
  match dictLookup s.pipelines p.name with
  | none =>
    (.error (.ResourceNotFoundException
      ("The account with id '" ++ ACCOUNT_ID ++
        "' does not include a pipeline with the name '" ++ p.name ++ "'")), s)
  | some cp =>
    match cp.pipeline.version with
    | none => (.error (.KeyError "version"), s)
    | some v =>
      let newPipeline := add_default_values { p with version := some (v + 1) }
      let cp2 := { cp with pipeline := newPipeline, updated := now }
      (.ok newPipeline, { s with pipelines := dictInsert s.pipelines p.name cp2 })

/-- One row of the list_pipelines summary. -/
structure PipelineSummary where
  name : String
  version : Option Nat
  created : Nat
  updated : Nat
deriving DecidableEq, Repr

/-- CodePipelineBackend.list_pipelines: name-sorted summaries. -/
def list_pipelines (s : CodePipelineBackend) :
    Except CPError (List PipelineSummary) × CodePipelineBackend :=
  (.ok (sortOn PipelineSummary.name
    (s.pipelines.map fun kv =>
      { name := kv.1
        version := kv.2.pipeline.version
        created := kv.2.created
        updated := kv.2.updated })), s)

/-- CodePipelineBackend.delete_pipeline: pop with a default, never raises. -/
def delete_pipeline (name : String) (s : CodePipelineBackend) :
    Except CPError Unit × CodePipelineBackend :=
  (.ok (), { s with pipelines := dictPop s.pipelines name })

/-- The characters seen since the most recent colon. -/
def lastPartAux : List Char → List Char → List Char
  | [], acc => acc
  | c :: rest, acc =>
    if c = ':' then lastPartAux rest [] else lastPartAux rest (acc ++ [c])

/-- arn.split(":")[-1]: everything after the last colon (the whole string
when there is none, empty when the string ends in a colon). -/
def lastArnPart (arn : String) : String :=
  String.mk (lastPartAux arn.data [])

/-- The not-found error shared by the three tag operations. -/
def tagResourceNotFound (name : String) : CPError :=
  .ResourceNotFoundException
    ("The account with id '" ++ ACCOUNT_ID ++
      "' does not include a pipeline with the name '" ++ name ++ "'")

/-- CodePipelineBackend.list_tags_for_resource: key-sorted tag dicts. -/
def list_tags_for_resource (arn : String) (s : CodePipelineBackend) :
    Except CPError (List Tag) × CodePipelineBackend :=
  let name := lastArnPart arn
  match dictLookup s.pipelines name with
  | none => (.error (tagResourceNotFound name), s)
  | some cp =>
    (.ok (sortOn Tag.key (cp.tags.map fun kv => { key := kv.1, value := kv.2 })), s)

/-- CodePipelineBackend.tag_resource: validate first, then merge into the
tags dict. -/
def tag_resource (arn : String) (tags : List Tag) (s : CodePipelineBackend) :
    Except CPError Unit × CodePipelineBackend :=
  let name := lastArnPart arn
  match dictLookup s.pipelines name with
  | none => (.error (tagResourceNotFound name), s)
  | some cp =>
    match validate_tags cp tags with
    | some e => (.error e, s)
    | none =>
      let cp2 := { cp with tags := tagsUpdate cp.tags tags }
      (.ok (), { s with pipelines := dictInsert s.pipelines name cp2 })

/-- CodePipelineBackend.untag_resource: pop each key with a default. -/
def untag_resource (arn : String) (tagKeys : List String)
    (s : CodePipelineBackend) : Except CPError Unit × CodePipelineBackend :=
  let name := lastArnPart arn
  match dictLookup s.pipelines name with
  | none => (.error (tagResourceNotFound name), s)
  | some cp =>
    let cp2 := { cp with tags := tagKeys.foldl (fun acc k => dictPop acc k) cp.tags }
    (.ok (), { s with pipelines := dictInsert s.pipelines name cp2 })

/-! ## SES data model (moto/ses/models.py) -/

/-- moto/ses/models.py RECIPIENT_LIMIT. -/
def RECIPIENT_LIMIT : Nat := 50

/-- class Message: one plain send event. destinations is the request's dict
of address lists (ToAddresses / CcAddresses / BccAddresses). -/
structure Message where
  id : String
  source : String
  subject : String
  body : String
  destinations : List (String × List String)
deriving DecidableEq, Repr

/-- class TemplateMessage: one templated send event. -/
structure TemplateMessage where
  id : String
  source : String
  template : List String
  template_data : List String
  destinations : List (String × List String)
deriving DecidableEq, Repr

/-- The heterogeneous entries of SESBackend.sent_messages. -/
inductive SentMessage where
  | plain (m : Message)
  | templated (m : TemplateMessage)
deriving DecidableEq, Repr

/-- One stored template dict (add_template's template_info). Stored dicts
are non-empty, so the truthiness test templates.get(name) reduces to
presence of the key. -/
structure TemplateInfo where
  template_name : String
  subject_part : String
  text_part : String
  html_part : String
deriving DecidableEq, Repr

/-- The SESBackend fields the send operations touch: the three verified
identity collections, the send log, the two counters and the template
store. The remaining fields (sns_topics, config sets, receipt rules, ...)
are read by none of the modelled operations; the feedback hook
process_sns_feedback only publishes to the sibling SNS backend and leaves
every SES field unchanged, so it is the identity here. -/
structure SESBackend where
  addresses : List String
  email_addresses : List String
  domains : List String
  sent_messages : List SentMessage
  sent_message_count : Nat
  rejected_messages_count : Nat
  templates : List (String × TemplateInfo)
deriving DecidableEq, Repr

/-- address.split("@", 1)[-1]: the part after the first @ (the whole string
when there is none). -/
def hostOf (address : String) : String :=
  match address.data.dropWhile (fun c => c ≠ '@') with
  | [] => address
  | _ :: tail => String.mk tail

/-- SESBackend._is_verified_address. parseaddr is the Python stdlib
email.utils.parseaddr address extractor, an external collaborator taken as
a parameter. -/
def is_verified_address (parseaddr : String → String) (s : SESBackend)
    (source : String) : Bool :=
  let address := parseaddr source
  s.addresses.contains address || s.email_addresses.contains address ||
    s.domains.contains (hostOf address)

/-- sum(map(len, destinations.values())). -/
def recipientCount (destinations : List (String × List String)) : Nat :=
  (destinations.map fun kv => kv.2.length).sum

/-- The per-address syntax loop of the send operations: the first address
for which is_valid_address returns a message decides the error.
is_valid_address lives in moto/ses/utils.py, which is not in src/;
Modelled from the spec: the per-address syntax check is an external
predicate, taken as a parameter returning the error message of a
malformed address. -/
def firstInvalidAddress (is_valid_address : String → Option String) :
    List String → Option String
  | [] => none
  | a :: rest =>
    match is_valid_address a with
    | some m => some m
    | none => firstInvalidAddress is_valid_address rest

/-- The exceptions the modelled SES send operations raise (IndexError is
Python's, reachable only from an empty template query-value list). -/
inductive SESError where
  | MessageRejectedError (msg : String)
  | InvalidParameterValue (msg : String)
  | TemplateDoesNotExist (msg : String)
  | IndexError
deriving DecidableEq, Repr

/-- SESBackend.send_email. Check order follows the source: recipient
count, source verification (incrementing the rejection counter before the
raise), per-address syntax; then the message is logged and the sent
counter grows by the recipient count. message_id stands for the generated
get_random_message_id value. -/
def send_email (parseaddr : String → String)
    (is_valid_address : String → Option String) (message_id : String)
    (source subject body : String) (destinations : List (String × List String))
    (s : SESBackend) : Except SESError Message × SESBackend :=
  let recipient_count := recipientCount destinations
  if recipient_count > RECIPIENT_LIMIT then
    (.error (.MessageRejectedError "Too many recipients."), s)
  else if ¬ is_verified_address parseaddr s source then
    (.error (.MessageRejectedError ("Email address not verified " ++ source)),
      { s with rejected_messages_count := s.rejected_messages_count + 1 })
  else
    let destination_addresses := (destinations.map Prod.snd).flatten
    match firstInvalidAddress is_valid_address (source :: destination_addresses) with
    | some msg => (.error (.InvalidParameterValue msg), s)
    | none =>
      let message : Message :=
        { id := message_id, source := source, subject := subject, body := body
          destinations := destinations }
      (.ok message,
        { s with
          sent_messages := s.sent_messages ++ [.plain message]
          sent_message_count := s.sent_message_count + recipient_count })

/-- SESBackend.send_templated_email: as send_email, with the
template-existence check after the address loop. -/
def send_templated_email (parseaddr : String → String)
    (is_valid_address : String → Option String) (message_id : String)
    (source : String) (template template_data : List String)
    (destinations : List (String × List String)) (s : SESBackend) :
    Except SESError TemplateMessage × SESBackend :=
  let recipient_count := recipientCount destinations
  if recipient_count > RECIPIENT_LIMIT then
    (.error (.MessageRejectedError "Too many recipients."), s)
  else if ¬ is_verified_address parseaddr s source then
    (.error (.MessageRejectedError ("Email address not verified " ++ source)),
      { s with rejected_messages_count := s.rejected_messages_count + 1 })
  else
    let destination_addresses := (destinations.map Prod.snd).flatten
    match firstInvalidAddress is_valid_address (source :: destination_addresses) with
    | some msg => (.error (.InvalidParameterValue msg), s)
    | none =>
      match template.head? with
      | none => (.error .IndexError, s)
      | some t0 =>
        if (dictLookup s.templates t0).isNone then
          (.error (.TemplateDoesNotExist ("Template (" ++ t0 ++ ") does not exist")),
            s)
        else
          let message : TemplateMessage :=
            { id := message_id, source := source, template := template
              template_data := template_data, destinations := destinations }
          (.ok message,
            { s with
              sent_messages := s.sent_messages ++ [.templated message]
              sent_message_count := s.sent_message_count + recipient_count })

/-! ## EC2 network ACLs (moto/ec2/_models/network_acls.py) -/

/-- network_acls.py OWNER_ID (= moto.core ACCOUNT_ID). -/
def OWNER_ID : String := ACCOUNT_ID

/-- class NetworkAclEntry. rule_number and egress are the strings the wire
layer passes (the default entries use "true"/"false" and "100"/"32767"). -/
structure NetworkAclEntry where
  network_acl_id : String
  rule_number : String
  protocol : String
  rule_action : String
  egress : String
  cidr_block : String
  icmp_code : Option Nat
  icmp_type : Option Nat
  port_range_from : Option Nat
  port_range_to : Option Nat
deriving DecidableEq, Repr

/-- class NetworkAclAssociation: a subnet-to-ACL link (id and
new_association_id are set to the same generated value). -/
structure NetworkAclAssociation where
  id : String
  new_association_id : String
  subnet_id : Option String
  network_acl_id : String
deriving DecidableEq, Repr

/-- class NetworkAcl. tags come from TaggedEC2Resource.add_tag; the
associations dict maps association id to the association object. -/
structure NetworkAcl where
  id : String
  vpc_id : String
  owner_id : String
  network_acl_entries : List NetworkAclEntry
  associations : List (String × NetworkAclAssociation)
  default : String
  tags : List (String × String)
deriving DecidableEq, Repr

/-- The exceptions the modelled network-ACL operations raise. StopIteration
is Python's, raised by the bare next() in delete_network_acl_entry when no
entry matches. InvalidVpcIdError stands for the error of
NetworkAclBackend.get_vpc; Modelled from the spec: get_vpc lives in the
VPC model (moto/ec2/_models/vpcs.py, not in src/), a cross-reference
existence check over the VPC store. -/
inductive EC2Error where
  | InvalidNetworkAclIdError (network_acl_id : String)
  | InvalidVpcIdError (vpc_id : String)
  | NetworkAclEntryAlreadyExistsError (rule_number : String)
  | StopIteration
deriving DecidableEq, Repr

/-- The NetworkAclBackend state: the ACL store, plus (Modelled from the
spec) the VPC store that the get_vpc cross-reference check consults. -/
structure NetworkAclBackend where
  network_acls : List (String × NetworkAcl)
  vpcs : List String
deriving DecidableEq, Repr

/-- NetworkAclBackend.get_network_acl (read-only; raises on an absent id). -/
def get_network_acl (s : NetworkAclBackend) (network_acl_id : String) :
    Except EC2Error NetworkAcl :=
  match dictLookup s.network_acls network_acl_id with
  | none => .error (.InvalidNetworkAclIdError network_acl_id)
  | some acl => .ok acl

/-- NetworkAclBackend.create_network_acl_entry: look the ACL up, refuse a
second entry with the same (egress, rule_number) pair, append otherwise. -/
def create_network_acl_entry (network_acl_id rule_number protocol rule_action
    egress cidr_block : String) (icmp_code icmp_type port_range_from
    port_range_to : Option Nat) (s : NetworkAclBackend) :
    Except EC2Error NetworkAclEntry × NetworkAclBackend :=
  match dictLookup s.network_acls network_acl_id with
  | none => (.error (.InvalidNetworkAclIdError network_acl_id), s)
  | some acl =>
    if acl.network_acl_entries.any
        (fun e => e.egress == egress && e.rule_number == rule_number) then
      (.error (.NetworkAclEntryAlreadyExistsError rule_number), s)
    else
      let entry : NetworkAclEntry :=
        { network_acl_id := network_acl_id, rule_number := rule_number
          protocol := protocol, rule_action := rule_action, egress := egress
          cidr_block := cidr_block, icmp_code := icmp_code, icmp_type := icmp_type
          port_range_from := port_range_from, port_range_to := port_range_to }
      let acl2 :=
        { acl with network_acl_entries := acl.network_acl_entries ++ [entry] }
      (.ok entry,
        { s with network_acls := dictInsert s.network_acls network_acl_id acl2 })

/-- The four rows of add_default_entries' default_acl_entries table:
(rule_number, rule_action, egress). -/
def default_acl_entries : List (String × String × String) :=
  [("100", "allow", "true"), ("32767", "deny", "true"),
   ("100", "allow", "false"), ("32767", "deny", "false")]

/-- The loop body of add_default_entries: one create_network_acl_entry call
per table row, protocol "-1" and cidr 0.0.0.0/0, threading the state. -/
def run_default_entries (network_acl_id : String) :
    List (String × String × String) → NetworkAclBackend →
    Except EC2Error Unit × NetworkAclBackend
  | [], s => (.ok (), s)
  | (rule_number, rule_action, egress) :: rest, s =>
    match create_network_acl_entry network_acl_id rule_number "-1" rule_action
        egress "0.0.0.0/0" none none none none s with
    | (.error e, s1) => (.error e, s1)
    | (.ok _, s1) => run_default_entries network_acl_id rest s1

/-- NetworkAclBackend.add_default_entries. -/
def add_default_entries (network_acl_id : String) (s : NetworkAclBackend) :
    Except EC2Error Unit × NetworkAclBackend :=
  run_default_entries network_acl_id default_acl_entries s

/-- NetworkAclBackend.create_network_acl: checks the VPC cross-reference,
stores a fresh ACL (network_acl_id stands for the generated
random_network_acl_id, tags are attached via add_tag), and on default=True
populates the default entries before returning the stored object. -/
def create_network_acl (network_acl_id vpc_id : String)
    (tags : List (String × String)) (default : Bool) (s : NetworkAclBackend) :
    Except EC2Error NetworkAcl × NetworkAclBackend :=
  if ¬ s.vpcs.contains vpc_id then (.error (.InvalidVpcIdError vpc_id), s)
  else
    let acl : NetworkAcl :=
      { id := network_acl_id, vpc_id := vpc_id, owner_id := OWNER_ID
        network_acl_entries := [], associations := []
        default := if default then "true" else "false", tags := tags }
    let s1 := { s with network_acls := dictInsert s.network_acls network_acl_id acl }
    if default then
      match add_default_entries network_acl_id s1 with
      | (.error e, s2) => (.error e, s2)
      | (.ok _, s2) =>
        match dictLookup s2.network_acls network_acl_id with
        | some stored => (.ok stored, s2)
        | none => (.error (.InvalidNetworkAclIdError network_acl_id), s2)
    else (.ok acl, s1)

/-- NetworkAclBackend.delete_network_acl: pop, then raise when nothing was
popped (so an absent id leaves the store as it was). -/
def delete_network_acl (network_acl_id : String) (s : NetworkAclBackend) :
    Except EC2Error NetworkAcl × NetworkAclBackend :=
  match dictLookup s.network_acls network_acl_id with
  | none => (.error (.InvalidNetworkAclIdError network_acl_id), s)
  | some acl =>
    (.ok acl, { s with network_acls := dictPop s.network_acls network_acl_id })

/-- NetworkAclBackend.delete_network_acl_entry: the bare next() picks the
first entry matching (egress, rule_number) and raises StopIteration when
there is none; list.remove then drops that entry. -/
def delete_network_acl_entry (network_acl_id rule_number egress : String)
    (s : NetworkAclBackend) : Except EC2Error NetworkAclEntry × NetworkAclBackend :=
  match dictLookup s.network_acls network_acl_id with
  | none => (.error (.InvalidNetworkAclIdError network_acl_id), s)
  | some acl =>
    match acl.network_acl_entries.find?
        (fun e => e.egress == egress && e.rule_number == rule_number) with
    | none => (.error .StopIteration, s)
    | some entry =>
      let acl2 :=
        { acl with
          network_acl_entries := acl.network_acl_entries.eraseP
            (fun e => e.egress == egress && e.rule_number == rule_number) }
      (.ok entry,
        { s with network_acls := dictInsert s.network_acls network_acl_id acl2 })

/-- NetworkAclBackend.replace_network_acl_entry: delete the matching entry,
then create the replacement. -/
def replace_network_acl_entry (network_acl_id rule_number protocol rule_action
    egress cidr_block : String) (icmp_code icmp_type port_range_from
    port_range_to : Option Nat) (s : NetworkAclBackend) :
    Except EC2Error NetworkAclEntry × NetworkAclBackend :=
  match delete_network_acl_entry network_acl_id rule_number egress s with
  | (.error e, s1) => (.error e, s1)
  | (.ok _, s1) =>
    create_network_acl_entry network_acl_id rule_number protocol rule_action
      egress cidr_block icmp_code icmp_type port_range_from port_range_to s1

/-- NetworkAclBackend.replace_network_acl_association. The bare next()
picks the first ACL whose associations dict holds association_id (raising
StopIteration when none does); the old association is then deleted, and
only afterwards is the target ACL looked up -- so an absent target id
raises InvalidNetworkAclIdError with the old association already gone.
new_assoc_id stands for the generated
random_network_acl_subnet_association_id. -/
def replace_network_acl_association (new_assoc_id association_id
    network_acl_id : String) (s : NetworkAclBackend) :
    Except EC2Error NetworkAclAssociation × NetworkAclBackend :=
  match s.network_acls.find?
      (fun kv => (dictLookup kv.2.associations association_id).isSome) with
  | none => (.error .StopIteration, s)
  | some (aclKey, default_acl) =>
    let subnet_id :=
      match dictLookup default_acl.associations association_id with
      | some assoc => assoc.subnet_id
      | none => none
    let default_acl2 :=
      { default_acl with
        associations := dictPop default_acl.associations association_id }
    let s1 := { s with network_acls := dictInsert s.network_acls aclKey default_acl2 }
    let association : NetworkAclAssociation :=
      { id := new_assoc_id, new_association_id := new_assoc_id
        subnet_id := subnet_id, network_acl_id := network_acl_id }
    match dictLookup s1.network_acls network_acl_id with
    | none => (.error (.InvalidNetworkAclIdError network_acl_id), s1)
    | some new_acl =>
      let new_acl2 :=
        { new_acl with
          associations := dictInsert new_acl.associations new_assoc_id association }
      (.ok association,
        { s1 with network_acls := dictInsert s1.network_acls network_acl_id new_acl2 })

/-- NetworkAclBackend.associate_default_network_acl_with_subnet. The
filter tests "acl.default and acl.vpc_id == vpc_id", where default is the
string "true" or "false": both are truthy in Python, so the non-empty test
is what the code evaluates and any ACL of the VPC matches. The bare next()
raises StopIteration when no ACL of the VPC exists. association_id stands
for the generated random_network_acl_subnet_association_id. -/
def associate_default_network_acl_with_subnet (association_id subnet_id
    vpc_id : String) (s : NetworkAclBackend) :
    Except EC2Error Unit × NetworkAclBackend :=
  match s.network_acls.find?
      (fun kv => kv.2.default != "" && kv.2.vpc_id == vpc_id) with
  | none => (.error .StopIteration, s)
  | some (aclKey, acl) =>
    let association : NetworkAclAssociation :=
      { id := association_id, new_association_id := association_id
        subnet_id := some subnet_id, network_acl_id := acl.id }
    let acl2 :=
      { acl with associations := dictInsert acl.associations association_id association }
    (.ok (), { s with network_acls := dictInsert s.network_acls aclKey acl2 })

/-- The state replace_network_acl_association leaves behind once it has
deleted the old association: the holding ACL's associations dict has lost
the binding, everything else is untouched. -/
def dropAssociation (b : NetworkAclBackend) (aclKey : String)
    (default_acl : NetworkAcl) (association_id : String) : NetworkAclBackend :=
  { b with network_acls := dictInsert b.network_acls aclKey { default_acl with associations := dictPop default_acl.associations association_id } }

/-! ## Operation languages and step functions

One constructor per public Backend method modelled above, so that
sequences of calls (and hence reachable states and no-partial-mutation
properties) can be quantified over. Each step drops the method's return
value and keeps the raised error and the post-call state. -/

/-- Forget a method's return value, keep error and post-state. -/
def dropResult {ε β σ : Type} : Except ε β × σ → Except ε Unit × σ
  | (.ok _, s) => (.ok (), s)
  | (.error e, s) => (.error e, s)

/-- The CodePipelineBackend methods. -/
inductive CPOp where
  | createPipeline (now : Nat) (p : Pipeline) (tags : List Tag)
  | getPipeline (name : String)
  | updatePipeline (now : Nat) (p : Pipeline)
  | deletePipeline (name : String)
  | listPipelines
  | listTagsForResource (arn : String)
  | tagResource (arn : String) (tags : List Tag)
  | untagResource (arn : String) (keys : List String)
deriving DecidableEq, Repr

/-- One CodePipelineBackend call. -/
def cpStep (op : CPOp) (s : CodePipelineBackend) :
    Except CPError Unit × CodePipelineBackend :=
  match op with
  | .createPipeline now p tags => dropResult (create_pipeline now p tags s)
  | .getPipeline name => dropResult (get_pipeline name s)
  | .updatePipeline now p => dropResult (update_pipeline now p s)
  | .deletePipeline name => dropResult (delete_pipeline name s)
  | .listPipelines => dropResult (list_pipelines s)
  | .listTagsForResource arn => dropResult (list_tags_for_resource arn s)
  | .tagResource arn tags => dropResult (tag_resource arn tags s)
  | .untagResource arn keys => dropResult (untag_resource arn keys s)

/-- A sequence of CodePipelineBackend calls (errors are caught by the
caller; the backend keeps whatever state the failed call left). -/
def cpRun (ops : List CPOp) (s : CodePipelineBackend) : CodePipelineBackend :=
  match ops with
  | [] => s
  | op :: rest => cpRun rest (cpStep op s).2

/-- The modelled SESBackend send methods. -/
inductive SESOp where
  | sendEmail (message_id source subject body : String)
      (destinations : List (String × List String))
  | sendTemplatedEmail (message_id source : String)
      (template template_data : List String)
      (destinations : List (String × List String))
deriving DecidableEq, Repr

/-- One SESBackend call (parameterised by the two external helpers). -/
def sesStep (parseaddr : String → String)
    (is_valid_address : String → Option String) (op : SESOp) (s : SESBackend) :
    Except SESError Unit × SESBackend :=
  match op with
  | .sendEmail message_id source subject body destinations =>
    dropResult (send_email parseaddr is_valid_address message_id source subject
      body destinations s)
  | .sendTemplatedEmail message_id source template template_data destinations =>
    dropResult (send_templated_email parseaddr is_valid_address message_id
      source template template_data destinations s)

/-- The modelled NetworkAclBackend methods. -/
inductive AclOp where
  | createNetworkAcl (network_acl_id vpc_id : String)
      (tags : List (String × String)) (default : Bool)
  | deleteNetworkAcl (network_acl_id : String)
  | getNetworkAcl (network_acl_id : String)
  | createEntry (network_acl_id rule_number protocol rule_action egress
      cidr_block : String) (icmp_code icmp_type port_range_from
      port_range_to : Option Nat)
  | deleteEntry (network_acl_id rule_number egress : String)
  | replaceEntry (network_acl_id rule_number protocol rule_action egress
      cidr_block : String) (icmp_code icmp_type port_range_from
      port_range_to : Option Nat)
  | replaceAssociation (new_assoc_id association_id network_acl_id : String)
  | associateDefault (association_id subnet_id vpc_id : String)
deriving DecidableEq, Repr

/-- One NetworkAclBackend call. -/
def aclStep (op : AclOp) (s : NetworkAclBackend) :
    Except EC2Error Unit × NetworkAclBackend :=
  match op with
  | .createNetworkAcl network_acl_id vpc_id tags default =>
    dropResult (create_network_acl network_acl_id vpc_id tags default s)
  | .deleteNetworkAcl network_acl_id => dropResult (delete_network_acl network_acl_id s)
  | .getNetworkAcl network_acl_id => (dropResult ((get_network_acl s network_acl_id), s))
  | .createEntry a r pr ac eg ci ic it pf pt =>
    dropResult (create_network_acl_entry a r pr ac eg ci ic it pf pt s)
  | .deleteEntry a r eg => dropResult (delete_network_acl_entry a r eg s)
  | .replaceEntry a r pr ac eg ci ic it pf pt =>
    dropResult (replace_network_acl_entry a r pr ac eg ci ic it pf pt s)
  | .replaceAssociation nid aid tid =>
    dropResult (replace_network_acl_association nid aid tid s)
  | .associateDefault aid sid vid =>
    dropResult (associate_default_network_acl_with_subnet aid sid vid s)

/-- A sequence of NetworkAclBackend calls. -/
def aclRun (ops : List AclOp) (s : NetworkAclBackend) : NetworkAclBackend :=
  match ops with
  | [] => s
  | op :: rest => aclRun rest (aclStep op s).2

/-- The combined mock: one state per modelled service. -/
structure MotoState where
  cp : CodePipelineBackend
  ses : SESBackend
  acl : NetworkAclBackend
deriving DecidableEq, Repr

/-- The union of the modelled services' errors. -/
inductive MotoError where
  | cp (e : CPError)
  | ses (e : SESError)
  | acl (e : EC2Error)
deriving DecidableEq, Repr

/-- The union of the modelled services' operations. -/
inductive BackendOp where
  | cp (op : CPOp)
  | ses (op : SESOp)
  | acl (op : AclOp)
deriving DecidableEq, Repr

/-- One Backend call on the combined mock. -/
def motoStep (parseaddr : String → String)
    (is_valid_address : String → Option String) (op : BackendOp)
    (s : MotoState) : Except MotoError Unit × MotoState :=
  match op with
  | .cp op =>
    match cpStep op s.cp with
    | (.ok _, cp2) => (.ok (), { s with cp := cp2 })
    | (.error e, cp2) => (.error (.cp e), { s with cp := cp2 })
  | .ses op =>
    match sesStep parseaddr is_valid_address op s.ses with
    | (.ok _, ses2) => (.ok (), { s with ses := ses2 })
    | (.error e, ses2) => (.error (.ses e), { s with ses := ses2 })
  | .acl op =>
    match aclStep op s.acl with
    | (.ok _, acl2) => (.ok (), { s with acl := acl2 })
    | (.error e, acl2) => (.error (.acl e), { s with acl := acl2 })

/-! ## Shared lemmas about the dict model -/

theorem dictLookup_dictInsert {α : Type} (d : List (String × α)) (k k2 : String)
    (v : α) :
    dictLookup (dictInsert d k v) k2 = if k = k2 then some v else dictLookup d k2 := by
  induction d with
  | nil => by_cases h : k = k2 <;> simp [dictInsert, dictLookup, h]
  | cons hd tl ih =>
    obtain ⟨k3, v3⟩ := hd
    by_cases h3 : k3 = k
    · subst h3
      by_cases h : k3 = k2 <;> simp [dictInsert, dictLookup, h]
    · by_cases h : k3 = k2
      · subst h
        have hk : ¬ k = k3 := fun hc => h3 hc.symm
        simp [dictInsert, dictLookup, h3, hk]
      · simp [dictInsert, dictLookup, h3, h, ih]

theorem dictInsert_dictInsert {α : Type} (d : List (String × α)) (k : String)
    (v1 v2 : α) : dictInsert (dictInsert d k v1) k v2 = dictInsert d k v2 := by
  induction d with
  | nil => simp [dictInsert]
  | cons hd tl ih =>
    obtain ⟨k3, v3⟩ := hd
    by_cases h3 : k3 = k <;> simp [dictInsert, h3, ih]

theorem dictLookup_mem {α : Type} {d : List (String × α)} {k : String} {v : α}
    (h : dictLookup d k = some v) : (k, v) ∈ d := by
  induction d with
  | nil => simp [dictLookup] at h
  | cons hd tl ih =>
    obtain ⟨k2, v2⟩ := hd
    simp only [dictLookup] at h
    by_cases hk : k2 = k
    · subst hk
      simp at h
      simp [h]
    · simp [hk] at h
      exact List.mem_cons_of_mem _ (ih h)

theorem mem_dictInsert {α : Type} {d : List (String × α)} {k : String} {v : α}
    {x : String × α} (h : x ∈ dictInsert d k v) : x = (k, v) ∨ x ∈ d := by
  induction d with
  | nil => simpa [dictInsert] using h
  | cons hd tl ih =>
    obtain ⟨k2, v2⟩ := hd
    simp only [dictInsert] at h
    by_cases hk : k2 = k
    · subst hk
      simp at h
      rcases h with h | h
      · subst h; exact Or.inl rfl
      · exact Or.inr (List.mem_cons_of_mem _ h)
    · simp [hk] at h
      rcases h with h | h
      · subst h; exact Or.inr (List.mem_cons_self _ _)
      · rcases ih h with h2 | h2
        · exact Or.inl h2
        · exact Or.inr (List.mem_cons_of_mem _ h2)

theorem mem_dictPop {α : Type} {d : List (String × α)} {k : String}
    {x : String × α} (h : x ∈ dictPop d k) : x ∈ d := by
  induction d with
  | nil => simpa [dictPop] using h
  | cons hd tl ih =>
    obtain ⟨k2, v2⟩ := hd
    simp only [dictPop] at h
    by_cases hk : k2 = k
    · simp [hk] at h
      exact List.mem_cons_of_mem _ h
    · simp [hk] at h
      rcases h with h | h
      · subst h; exact List.mem_cons_self _ _
      · exact List.mem_cons_of_mem _ (ih h)

theorem dictInsert_length_le {α : Type} (d : List (String × α)) (k : String)
    (v : α) : (dictInsert d k v).length ≤ d.length + 1 := by
  induction d with
  | nil => simp [dictInsert]
  | cons hd tl ih =>
    obtain ⟨k2, v2⟩ := hd
    by_cases hk : k2 = k <;> simp [dictInsert, hk] <;> omega

theorem dictPop_length_le {α : Type} (d : List (String × α)) (k : String) :
    (dictPop d k).length ≤ d.length := by
  induction d with
  | nil => simp [dictPop]
  | cons hd tl ih =>
    obtain ⟨k2, v2⟩ := hd
    by_cases hk : k2 = k <;> simp [dictPop, hk] <;> omega

theorem tagsUpdate_length_le (d : List (String × String)) (tags : List Tag) :
    (tagsUpdate d tags).length ≤ d.length + tags.length := by
  induction tags generalizing d with
  | nil => simp [tagsUpdate]
  | cons t rest ih =>
    simp only [tagsUpdate, List.foldl_cons] at *
    calc (rest.foldl (fun acc t2 => dictInsert acc t2.key t2.value)
            (dictInsert d t.key t.value)).length
        ≤ (dictInsert d t.key t.value).length + rest.length := ih _
      _ ≤ d.length + 1 + rest.length := by
          have := dictInsert_length_le d t.key t.value; omega
      _ = d.length + (rest.length + 1) := by omega
      _ = d.length + (t :: rest).length := by simp

theorem popFold_length_le (keys : List String) (d : List (String × String)) :
    (keys.foldl (fun acc k => dictPop acc k) d).length ≤ d.length := by
  induction keys generalizing d with
  | nil => simp
  | cons k rest ih =>
    simp only [List.foldl_cons]
    calc (rest.foldl (fun acc k2 => dictPop acc k2) (dictPop d k)).length
        ≤ (dictPop d k).length := ih _
      _ ≤ d.length := dictPop_length_le d k

/-! ## Concrete fixtures (used by witnesses and counterexamples) -/

/-- A role arn trusted for codepipeline in the example IAM store. -/
def egRole : String := "arn:aws:iam::123456789012:role/cp"

/-- An action dict with all four defaultable keys absent. -/
def egAction : Action :=
  { runOrder := none, configuration := none, outputArtifacts := none
    inputArtifacts := none, rest := [] }

/-- A one-action stage. -/
def egStage (n : String) : Stage := { name := n, actions := [egAction] }

/-- A valid two-stage creation payload. -/
def egPipeline : Pipeline :=
  { name := "pipe", roleArn := egRole, stages := [egStage "s1", egStage "s2"]
    version := none }

/-- An empty CodePipeline backend whose IAM collaborator trusts egRole. -/
def egCP : CodePipelineBackend :=
  { pipelines := [], region := "us-east-1"
    roles := [(egRole, ["codepipeline.amazonaws.com"])] }

/-- An SES backend with one verified address and no templates. -/
def egSES : SESBackend :=
  { addresses := ["ok@example.com"], email_addresses := [], domains := []
    sent_messages := [], sent_message_count := 0, rejected_messages_count := 0
    templates := [] }

/-- A destinations dict totalling 51 recipients. -/
def dests51 : List (String × List String) :=
  [("ToAddresses", List.replicate 51 "r@example.com")]

/-- An empty network-ACL backend whose VPC store holds vpc-1. -/
def egACL : NetworkAclBackend := { network_acls := [], vpcs := ["vpc-1"] }

/-- The combined example state. -/
def egMoto : MotoState := { cp := egCP, ses := egSES, acl := egACL }

/-! ## CodePipeline helper lemmas -/

/-- What a successful create_pipeline did: all three up-front checks
passed, and the state gained exactly one entity under the payload's name,
holding version 1 and the defaulted payload. -/
theorem create_pipeline_ok {now : Nat} {p : Pipeline} {tags : List Tag}
    {s s1 : CodePipelineBackend} {r : Pipeline × List Tag}
    (h : create_pipeline now p tags s = (.ok r, s1)) :
    dictLookup s.pipelines p.name = none ∧
    ∃ cpStored,
      s1 = { s with pipelines := dictInsert s.pipelines p.name cpStored } ∧
      cpStored.pipeline = add_default_values { p with version := some 1 } ∧
      cpStored.arn = pipelineArn s.region p.name ∧
      r.1 = cpStored.pipeline := by
  by_cases h1 : (dictLookup s.pipelines p.name).isSome
  · simp [create_pipeline, h1] at h
  · have h1n : dictLookup s.pipelines p.name = none := by
      cases hl : dictLookup s.pipelines p.name
      · rfl
      · rw [hl] at h1; simp at h1
    refine ⟨h1n, ?_⟩
    by_cases h2 : roleTrusted s.roles p.roleArn
    · by_cases h3 : p.stages.length < 2
      · simp [create_pipeline, h1, h2, h3] at h
      · by_cases h4 : tags.isEmpty
        · simp [create_pipeline, h1, h2, h3, h4, Prod.ext_iff] at h
          rcases h with ⟨hr, hs⟩
          exact ⟨CodePipeline.init s.region now p, hs.symm, rfl, rfl, hr.1.symm⟩
        · cases hv : validate_tags (CodePipeline.init s.region now p) tags with
          | some e => simp [create_pipeline, h1, h2, h3, h4, hv] at h
          | none =>
            simp [create_pipeline, h1, h2, h3, h4, hv, Prod.ext_iff] at h
            rcases h with ⟨hr, hs⟩
            refine ⟨{ CodePipeline.init s.region now p with
              tags := tagsUpdate (CodePipeline.init s.region now p).tags tags },
              ?_, rfl, rfl, hr.1.symm⟩
            rw [← hs]
            simp [dictInsert_dictInsert]
    · simp [create_pipeline, h1, h2] at h

/-! ## C2: create is idempotent-rejecting -/

/-- C2: whenever a first create_pipeline for a name succeeded, a second
create_pipeline with the same name (whatever its payload and tags) raises
the already-exists InvalidStructureException and returns with the backend
state exactly as the first call left it, so the store retains only the
first entity's data. -/
theorem C2_create_is_idempotent_rejecting
    (now1 now2 : Nat) (p1 p2 : Pipeline) (tags1 tags2 : List Tag)
    (s s1 : CodePipelineBackend) (r : Pipeline × List Tag)
    (hname : p2.name = p1.name)
    (h : create_pipeline now1 p1 tags1 s = (.ok r, s1)) :
    create_pipeline now2 p2 tags2 s1 =
      (.error (.InvalidStructureException
        ("A pipeline with the name '" ++ p2.name ++ "' already exists in account '" ++
          ACCOUNT_ID ++ "'")), s1) := by
  obtain ⟨_, cpStored, hs1, _, _⟩ := create_pipeline_ok h
  have hlk : (dictLookup s1.pipelines p2.name).isSome := by
    subst hs1
    rw [hname]
    simp [dictLookup_dictInsert]
  simp [create_pipeline, hlk]

/-- Witness for C2 at a concrete double create. -/
theorem C2_create_is_idempotent_rejecting_witness :
    create_pipeline 1 egPipeline [] (create_pipeline 0 egPipeline [] egCP).2 =
      (.error (.InvalidStructureException
        ("A pipeline with the name '" ++ egPipeline.name ++
          "' already exists in account '" ++ ACCOUNT_ID ++ "'")),
        (create_pipeline 0 egPipeline [] egCP).2) :=
  C2_create_is_idempotent_rejecting 0 1 egPipeline egPipeline [] [] egCP
    (create_pipeline 0 egPipeline [] egCP).2
    (add_default_values { egPipeline with version := some 1 }, []) rfl rfl

/-! ## C4: the version counter -/

/-- add_default_values only rewrites the stages. -/
theorem add_default_values_version (p : Pipeline) :
    (add_default_values p).version = p.version := rfl

/-- n update_pipeline calls in a row with the same payload. -/
def cpUpdateIter (now : Nat) (q : Pipeline) : Nat → CodePipelineBackend →
    CodePipelineBackend
  | 0, s => s
  | n + 1, s => cpUpdateIter now q n (update_pipeline now q s).2

/-- One successful update bumps the stored version by exactly one. -/
theorem update_pipeline_version {now : Nat} {q : Pipeline}
    {s : CodePipelineBackend} {cp : CodePipeline} {v : Nat}
    (hlk : dictLookup s.pipelines q.name = some cp)
    (hv : cp.pipeline.version = some v) :
    ∃ cp2, (update_pipeline now q s).1 = .ok cp2.pipeline ∧
      dictLookup (update_pipeline now q s).2.pipelines q.name = some cp2 ∧
      cp2.pipeline.version = some (v + 1) := by
  refine ⟨{ cp with
    pipeline := add_default_values { q with version := some (v + 1) }
    updated := now }, ?_, ?_, ?_⟩
  · simp [update_pipeline, hlk, hv]
  · simp [update_pipeline, hlk, hv, dictLookup_dictInsert]
  · simp [add_default_values_version]

/-- Iterated updates raise the version by the number of calls. -/
theorem cpUpdateIter_version {now : Nat} {q : Pipeline} (n : Nat) :
    ∀ (s : CodePipelineBackend) (cp : CodePipeline) (v : Nat),
      dictLookup s.pipelines q.name = some cp →
      cp.pipeline.version = some v →
      ∃ cp2, dictLookup (cpUpdateIter now q n s).pipelines q.name = some cp2 ∧
        cp2.pipeline.version = some (v + n) := by
  induction n with
  | zero => intro s cp v hlk hv; exact ⟨cp, hlk, by simpa using hv⟩
  | succ n ih =>
    intro s cp v hlk hv
    obtain ⟨cp2, _, hlk2, hv2⟩ := @update_pipeline_version now q s cp v hlk hv
    obtain ⟨cp3, hlk3, hv3⟩ := ih _ cp2 (v + 1) hlk2 hv2
    exact ⟨cp3, hlk3, by rw [hv3]; congr 1; omega⟩

/-- C4: the version counter is 1 right after a successful create_pipeline,
every successful update_pipeline call raises the stored version by exactly
1, and after n updates of a freshly created pipeline the version reads
n + 1. -/
theorem C4_version_starts_at_one_and_update_increments :
    (∀ (now : Nat) (p : Pipeline) (tags : List Tag) (s s1 : CodePipelineBackend)
      (r : Pipeline × List Tag), create_pipeline now p tags s = (.ok r, s1) →
      ∃ cp, dictLookup s1.pipelines p.name = some cp ∧
        cp.pipeline.version = some 1) ∧
    (∀ (now : Nat) (q : Pipeline) (s : CodePipelineBackend) (cp : CodePipeline)
      (v : Nat), dictLookup s.pipelines q.name = some cp →
      cp.pipeline.version = some v →
      ∃ cp2, (update_pipeline now q s).1 = .ok cp2.pipeline ∧
        dictLookup (update_pipeline now q s).2.pipelines q.name = some cp2 ∧
        cp2.pipeline.version = some (v + 1)) ∧
    (∀ (now : Nat) (p : Pipeline) (tags : List Tag) (s s1 : CodePipelineBackend)
      (r : Pipeline × List Tag) (nowU n : Nat) (q : Pipeline),
      create_pipeline now p tags s = (.ok r, s1) → q.name = p.name →
      ∃ cp, dictLookup (cpUpdateIter nowU q n s1).pipelines q.name = some cp ∧
        cp.pipeline.version = some (n + 1)) := by
  refine ⟨?_, ?_, ?_⟩
  · intro now p tags s s1 r h
    obtain ⟨_, cpStored, hs1, hpl, _⟩ := create_pipeline_ok h
    subst hs1
    refine ⟨cpStored, by simp [dictLookup_dictInsert], ?_⟩
    rw [hpl, add_default_values_version]
  · intro now q s cp v hlk hv
    exact update_pipeline_version hlk hv
  · intro now p tags s s1 r nowU n q h hname
    obtain ⟨_, cpStored, hs1, hpl, _⟩ := create_pipeline_ok h
    have hlk : dictLookup s1.pipelines q.name = some cpStored := by
      subst hs1
      rw [hname]
      simp [dictLookup_dictInsert]
    have hv : cpStored.pipeline.version = some 1 := by
      rw [hpl, add_default_values_version]
    obtain ⟨cp2, hlk2, hv2⟩ := cpUpdateIter_version n s1 cpStored 1 hlk hv
    exact ⟨cp2, hlk2, by rw [hv2]; congr 1; omega⟩

/-- Witness for C4 at a concrete create followed by two updates. -/
theorem C4_version_starts_at_one_and_update_increments_witness :
    ∃ cp, dictLookup
        (cpUpdateIter 5 egPipeline 2
          (create_pipeline 0 egPipeline [] egCP).2).pipelines egPipeline.name =
        some cp ∧ cp.pipeline.version = some (2 + 1) :=
  C4_version_starts_at_one_and_update_increments.2.2 0 egPipeline [] egCP
    (create_pipeline 0 egPipeline [] egCP).2
    (add_default_values { egPipeline with version := some 1 }, []) 5 2 egPipeline
    rfl rfl

/-! ## C5: default-value population -/

/-- C5: after create_pipeline and after update_pipeline the stored pipeline
is the payload passed through the one defaulting function
add_default_values (so defaulting is identical on both paths), get_pipeline
reads that defaulted dict back, and on every action the defaulting function
yields runOrder 1, configuration {}, outputArtifacts [] and
inputArtifacts [] exactly when the field was missing, keeping present
fields as they were. -/
theorem C5_default_value_population :
    (∀ (now : Nat) (p : Pipeline) (tags : List Tag) (s s1 : CodePipelineBackend)
      (r : Pipeline × List Tag), create_pipeline now p tags s = (.ok r, s1) →
      ∃ cpStored, dictLookup s1.pipelines p.name = some cpStored ∧
        cpStored.pipeline = add_default_values { p with version := some 1 } ∧
        (get_pipeline p.name s1).1 =
          .ok (cpStored.pipeline, cpStored.arn, cpStored.created, cpStored.updated)) ∧
    (∀ (now : Nat) (q : Pipeline) (s : CodePipelineBackend) (cp : CodePipeline)
      (v : Nat), dictLookup s.pipelines q.name = some cp →
      cp.pipeline.version = some v →
      ∃ cp2, dictLookup (update_pipeline now q s).2.pipelines q.name = some cp2 ∧
        cp2.pipeline = add_default_values { q with version := some (v + 1) }) ∧
    (∀ a : Action,
      (fillAction a).runOrder = some (a.runOrder.getD 1) ∧
      (fillAction a).configuration = some (a.configuration.getD []) ∧
      (fillAction a).outputArtifacts = some (a.outputArtifacts.getD []) ∧
      (fillAction a).inputArtifacts = some (a.inputArtifacts.getD []) ∧
      (fillAction a).rest = a.rest) ∧
    (∀ p : Pipeline, (add_default_values p).stages =
      p.stages.map fun st => { st with actions := st.actions.map fillAction }) := by
  refine ⟨?_, ?_, ?_, fun p => rfl⟩
  · intro now p tags s s1 r h
    obtain ⟨_, cpStored, hs1, hpl, _⟩ := create_pipeline_ok h
    have hlk : dictLookup s1.pipelines p.name = some cpStored := by
      subst hs1
      simp [dictLookup_dictInsert]
    exact ⟨cpStored, hlk, hpl, by simp [get_pipeline, hlk]⟩
  · intro now q s cp v hlk hv
    exact ⟨{ cp with
      pipeline := add_default_values { q with version := some (v + 1) }
      updated := now },
      by simp [update_pipeline, hlk, hv, dictLookup_dictInsert], rfl⟩
  · intro a
    obtain ⟨ro, cf, oa, ia, re⟩ := a
    cases ro <;> cases cf <;> cases oa <;> cases ia <;> simp [fillAction]

/-- Witness for C5 at a concrete create whose actions have all four
defaultable fields missing. -/
theorem C5_default_value_population_witness :
    ∃ cpStored,
      dictLookup (create_pipeline 0 egPipeline [] egCP).2.pipelines
        egPipeline.name = some cpStored ∧
      cpStored.pipeline = add_default_values { egPipeline with version := some 1 } ∧
      (get_pipeline egPipeline.name (create_pipeline 0 egPipeline [] egCP).2).1 =
        .ok (cpStored.pipeline, cpStored.arn, cpStored.created, cpStored.updated) :=
  C5_default_value_population.1 0 egPipeline [] egCP
    (create_pipeline 0 egPipeline [] egCP).2
    (add_default_values { egPipeline with version := some 1 }, []) rfl

/-! ## C7: the recipient ceiling on send_email -/

/-- C7: with more than 50 recipients in total, send_email raises the
recipient-ceiling rejection whose message is "Too many recipients." and
leaves the state untouched; with 50 or fewer the recipient-count check
passes, i.e. no error of that form can be the outcome. -/
theorem C7_send_email_recipient_limit (parseaddr : String → String)
    (is_valid_address : String → Option String)
    (message_id source subject body : String)
    (destinations : List (String × List String)) (s : SESBackend) :
    (recipientCount destinations > RECIPIENT_LIMIT →
      send_email parseaddr is_valid_address message_id source subject body
        destinations s = (.error (.MessageRejectedError "Too many recipients."), s)) ∧
    (recipientCount destinations ≤ RECIPIENT_LIMIT →
      ∀ e s2, send_email parseaddr is_valid_address message_id source subject body
        destinations s = (.error e, s2) →
        e ≠ .MessageRejectedError "Too many recipients.") := by
  constructor
  · intro hgt
    simp [send_email, hgt]
  · intro hle e s2 h
    have hgt : ¬ recipientCount destinations > RECIPIENT_LIMIT := by omega
    by_cases hver : is_verified_address parseaddr s source
    · cases hinv : firstInvalidAddress is_valid_address
          (source :: (destinations.map Prod.snd).flatten) with
      | some m =>
        simp [send_email, hgt, hver, hinv] at h
        rw [← h.1]
        simp
      | none => simp [send_email, hgt, hver, hinv] at h
    · simp [send_email, hgt, hver] at h
      rw [← h.1]
      intro hc
      have hmsg := congrArg String.length
        (SESError.MessageRejectedError.inj hc)
      have h27 : ("Email address not verified " : String).length = 27 := by decide
      have h20 : ("Too many recipients." : String).length = 20 := by decide
      rw [String.length_append, h27, h20] at hmsg
      omega

/-- Witness for C7: a 51-recipient send from a verified address is refused
with the recipient-ceiling message. -/
theorem C7_send_email_recipient_limit_witness :
    recipientCount dests51 > RECIPIENT_LIMIT ∧
    send_email id (fun _ => none) "m-1" "ok@example.com" "subject" "body"
      dests51 egSES =
      (.error (.MessageRejectedError "Too many recipients."), egSES) :=
  ⟨by decide,
    (C7_send_email_recipient_limit id (fun _ => none) "m-1" "ok@example.com"
      "subject" "body" dests51 egSES).1 (by decide)⟩

/-! ## C8: unverified source increments the rejection counter -/

/-- C8: with the recipient count within the ceiling and an unverified
source address, send_email raises the not-verified rejection and the
post-call state is the pre-call state with exactly the rejection counter
one higher (send log and sent counter untouched). -/
theorem C8_send_email_unverified_rejected (parseaddr : String → String)
    (is_valid_address : String → Option String)
    (message_id source subject body : String)
    (destinations : List (String × List String)) (s : SESBackend)
    (hle : recipientCount destinations ≤ RECIPIENT_LIMIT)
    (hver : ¬ is_verified_address parseaddr s source) :
    send_email parseaddr is_valid_address message_id source subject body
      destinations s =
      (.error (.MessageRejectedError ("Email address not verified " ++ source)),
        { s with rejected_messages_count := s.rejected_messages_count + 1 }) := by
  have hgt : ¬ recipientCount destinations > RECIPIENT_LIMIT := by omega
  simp [send_email, hgt, hver]

/-- Witness for C8 at a concrete unverified sender. -/
theorem C8_send_email_unverified_rejected_witness :
    send_email id (fun _ => none) "m-1" "bad@other.com" "subject" "body"
      [("ToAddresses", ["a@b.com"])] egSES =
      (.error (.MessageRejectedError
        ("Email address not verified " ++ "bad@other.com")),
        { egSES with
          rejected_messages_count := egSES.rejected_messages_count + 1 }) :=
  C8_send_email_unverified_rejected id (fun _ => none) "m-1" "bad@other.com"
    "subject" "body" [("ToAddresses", ["a@b.com"])] egSES (by decide) (by decide)

/-! ## C6: check order and fail-fast of the send operations -/

/-- C6: the checks of send_email and send_templated_email run in the fixed
order recipient count, source verification, per-address syntax, template
existence (template sends only): whichever check is the first to fail
determines the raised error whatever the later checks would say, and every
failing send leaves the sent-messages log unchanged (in particular, when
the recipient ceiling is exceeded and the source is also unverified, the
recipient-count error is the one raised, without touching the counters). -/
theorem C6_send_checks_ordered_and_fail_fast (parseaddr : String → String)
    (is_valid_address : String → Option String)
    (message_id source subject body : String)
    (template template_data : List String)
    (destinations : List (String × List String)) (s : SESBackend) :
    (recipientCount destinations > RECIPIENT_LIMIT →
      send_email parseaddr is_valid_address message_id source subject body
        destinations s = (.error (.MessageRejectedError "Too many recipients."), s) ∧
      send_templated_email parseaddr is_valid_address message_id source template
        template_data destinations s =
        (.error (.MessageRejectedError "Too many recipients."), s)) ∧
    (recipientCount destinations ≤ RECIPIENT_LIMIT →
      ¬ is_verified_address parseaddr s source →
      send_email parseaddr is_valid_address message_id source subject body
        destinations s =
        (.error (.MessageRejectedError ("Email address not verified " ++ source)),
          { s with rejected_messages_count := s.rejected_messages_count + 1 }) ∧
      send_templated_email parseaddr is_valid_address message_id source template
        template_data destinations s =
        (.error (.MessageRejectedError ("Email address not verified " ++ source)),
          { s with rejected_messages_count := s.rejected_messages_count + 1 })) ∧
    (∀ m, recipientCount destinations ≤ RECIPIENT_LIMIT →
      is_verified_address parseaddr s source →
      firstInvalidAddress is_valid_address
        (source :: (destinations.map Prod.snd).flatten) = some m →
      send_email parseaddr is_valid_address message_id source subject body
        destinations s = (.error (.InvalidParameterValue m), s) ∧
      send_templated_email parseaddr is_valid_address message_id source template
        template_data destinations s = (.error (.InvalidParameterValue m), s)) ∧
    (∀ t0, recipientCount destinations ≤ RECIPIENT_LIMIT →
      is_verified_address parseaddr s source →
      firstInvalidAddress is_valid_address
        (source :: (destinations.map Prod.snd).flatten) = none →
      template.head? = some t0 → dictLookup s.templates t0 = none →
      send_templated_email parseaddr is_valid_address message_id source template
        template_data destinations s =
        (.error (.TemplateDoesNotExist ("Template (" ++ t0 ++ ") does not exist")),
          s)) ∧
    (∀ e s2, send_email parseaddr is_valid_address message_id source subject body
        destinations s = (.error e, s2) → s2.sent_messages = s.sent_messages) ∧
    (∀ e s2, send_templated_email parseaddr is_valid_address message_id source
        template template_data destinations s = (.error e, s2) →
      s2.sent_messages = s.sent_messages) := by
  refine ⟨?_, ?_, ?_, ?_, ?_, ?_⟩
  · intro hgt
    constructor <;> simp [send_email, send_templated_email, hgt]
  · intro hle hver
    have hgt : ¬ recipientCount destinations > RECIPIENT_LIMIT := by omega
    constructor <;> simp [send_email, send_templated_email, hgt, hver]
  · intro m hle hver hinv
    have hgt : ¬ recipientCount destinations > RECIPIENT_LIMIT := by omega
    constructor <;> simp [send_email, send_templated_email, hgt, hver, hinv]
  · intro t0 hle hver hinv ht0 htpl
    have hgt : ¬ recipientCount destinations > RECIPIENT_LIMIT := by omega
    simp [send_templated_email, hgt, hver, hinv, ht0, htpl]
  · intro e s2 h
    by_cases hgt : recipientCount destinations > RECIPIENT_LIMIT
    · simp [send_email, hgt] at h
      rw [← h.2]
    · by_cases hver : is_verified_address parseaddr s source
      · cases hinv : firstInvalidAddress is_valid_address
            (source :: (destinations.map Prod.snd).flatten) with
        | some m =>
          simp [send_email, hgt, hver, hinv] at h
          rw [← h.2]
        | none => simp [send_email, hgt, hver, hinv] at h
      · simp [send_email, hgt, hver] at h
        rw [← h.2]
  · intro e s2 h
    by_cases hgt : recipientCount destinations > RECIPIENT_LIMIT
    · simp [send_templated_email, hgt] at h
      rw [← h.2]
    · by_cases hver : is_verified_address parseaddr s source
      · cases hinv : firstInvalidAddress is_valid_address
            (source :: (destinations.map Prod.snd).flatten) with
        | some m =>
          simp [send_templated_email, hgt, hver, hinv] at h
          rw [← h.2]
        | none =>
          cases ht0 : template.head? with
          | none =>
            simp [send_templated_email, hgt, hver, hinv, ht0] at h
            rw [← h.2]
          | some t0 =>
            by_cases htpl : (dictLookup s.templates t0).isNone
            · simp [send_templated_email, hgt, hver, hinv, ht0, htpl] at h
              rw [← h.2]
            · simp [send_templated_email, hgt, hver, hinv, ht0, htpl] at h
      · simp [send_templated_email, hgt, hver] at h
        rw [← h.2]

/-- Witness for C6: with 51 recipients and an unverified source, the
recipient-count error wins on both send operations. -/
theorem C6_send_checks_ordered_and_fail_fast_witness :
    recipientCount dests51 > RECIPIENT_LIMIT ∧
    send_email id (fun _ => none) "m-1" "bad@other.com" "subject" "body"
      dests51 egSES =
      (.error (.MessageRejectedError "Too many recipients."), egSES) ∧
    send_templated_email id (fun _ => none) "m-1" "bad@other.com" ["t"] []
      dests51 egSES =
      (.error (.MessageRejectedError "Too many recipients."), egSES) :=
  ⟨by decide,
    ((C6_send_checks_ordered_and_fail_fast id (fun _ => none) "m-1"
      "bad@other.com" "subject" "body" ["t"] [] dests51 egSES).1 (by decide)).1,
    ((C6_send_checks_ordered_and_fail_fast id (fun _ => none) "m-1"
      "bad@other.com" "subject" "body" ["t"] [] dests51 egSES).1 (by decide)).2⟩

/-! ## C9: default network ACL entries and delete on a missing id -/

/-- One row of the default-entries table as a stored entry: protocol -1,
cidr 0.0.0.0/0, no icmp or port fields. -/
def defaultEntry (network_acl_id rule_number rule_action egress : String) :
    NetworkAclEntry :=
  { network_acl_id := network_acl_id, rule_number := rule_number
    protocol := "-1", rule_action := rule_action, egress := egress
    cidr_block := "0.0.0.0/0", icmp_code := none, icmp_type := none
    port_range_from := none, port_range_to := none }

/-- The four default entries, in insertion order: the allow-100/deny-32767
pair for egress, then the same pair for ingress. -/
def defaultEntries4 (network_acl_id : String) : List NetworkAclEntry :=
  [defaultEntry network_acl_id "100" "allow" "true",
   defaultEntry network_acl_id "32767" "deny" "true",
   defaultEntry network_acl_id "100" "allow" "false",
   defaultEntry network_acl_id "32767" "deny" "false"]

/-- The stored object a default create_network_acl produces. -/
def defaultAcl (network_acl_id vpc_id : String) (tags : List (String × String)) :
    NetworkAcl :=
  { id := network_acl_id, vpc_id := vpc_id, owner_id := OWNER_ID
    network_acl_entries := defaultEntries4 network_acl_id, associations := []
    default := "true", tags := tags }

/-- Computing create_network_acl with default=True on an existing VPC: the
stored ACL carries exactly the four default entries. -/
theorem create_network_acl_default_eq (network_acl_id vpc_id : String)
    (tags : List (String × String)) (s : NetworkAclBackend)
    (h : s.vpcs.contains vpc_id = true) :
    create_network_acl network_acl_id vpc_id tags true s =
      (.ok (defaultAcl network_acl_id vpc_id tags),
        { s with network_acls := dictInsert s.network_acls network_acl_id (defaultAcl network_acl_id vpc_id tags) }) := by
  have hmem : vpc_id ∈ s.vpcs := by simpa using h
  simp [create_network_acl, hmem, add_default_entries, run_default_entries,
    create_network_acl_entry, dictLookup_dictInsert, dictInsert_dictInsert,
    defaultAcl, defaultEntries4, defaultEntry]

/-- C9: delete_network_acl on an id absent from the store raises the
not-found error and leaves the state untouched, and create_network_acl
with default=True stores an ACL whose entry list is exactly the four
default entries: the allow-100/deny-32767 pair for egress ("true") and the
same pair for ingress ("false"). -/
theorem C9_delete_notfound_and_default_acl_entries :
    (∀ (s : NetworkAclBackend) (network_acl_id : String),
      dictLookup s.network_acls network_acl_id = none →
      delete_network_acl network_acl_id s =
        (.error (.InvalidNetworkAclIdError network_acl_id), s)) ∧
    (∀ (s : NetworkAclBackend) (network_acl_id vpc_id : String)
      (tags : List (String × String)), s.vpcs.contains vpc_id = true →
      ∃ stored s2,
        create_network_acl network_acl_id vpc_id tags true s = (.ok stored, s2) ∧
        dictLookup s2.network_acls network_acl_id = some stored ∧
        stored.network_acl_entries =
          [defaultEntry network_acl_id "100" "allow" "true",
           defaultEntry network_acl_id "32767" "deny" "true",
           defaultEntry network_acl_id "100" "allow" "false",
           defaultEntry network_acl_id "32767" "deny" "false"]) := by
  constructor
  · intro s network_acl_id h
    simp [delete_network_acl, h]
  · intro s network_acl_id vpc_id tags h
    refine ⟨defaultAcl network_acl_id vpc_id tags,
      { s with network_acls := dictInsert s.network_acls network_acl_id (defaultAcl network_acl_id vpc_id tags) },
      create_network_acl_default_eq network_acl_id vpc_id tags s h,
      by simp [dictLookup_dictInsert], rfl⟩

/-- Witness for C9 at a concrete backend. -/
theorem C9_delete_notfound_and_default_acl_entries_witness :
    delete_network_acl "acl-9" egACL =
      (.error (.InvalidNetworkAclIdError "acl-9"), egACL) ∧
    ∃ stored s2,
      create_network_acl "acl-1" "vpc-1" [] true egACL = (.ok stored, s2) ∧
      dictLookup s2.network_acls "acl-1" = some stored ∧
      stored.network_acl_entries =
        [defaultEntry "acl-1" "100" "allow" "true",
         defaultEntry "acl-1" "32767" "deny" "true",
         defaultEntry "acl-1" "100" "allow" "false",
         defaultEntry "acl-1" "32767" "deny" "false"] :=
  ⟨C9_delete_notfound_and_default_acl_entries.1 egACL "acl-9" rfl,
    C9_delete_notfound_and_default_acl_entries.2 egACL "acl-1" "vpc-1" []
      (by decide)⟩

/-! ## C10: no ACL holds two entries with the same (egress, rule_number) -/

/-- The (egress, rule_number) key of each entry of an ACL, in order. -/
def aclEntryKeys (acl : NetworkAcl) : List (String × String) :=
  acl.network_acl_entries.map fun e => (e.egress, e.rule_number)

/-- The uniqueness invariant: no stored ACL holds two entries sharing an
(egress, rule_number) pair. -/
def aclEntriesUnique (b : NetworkAclBackend) : Prop :=
  ∀ kv ∈ b.network_acls, (aclEntryKeys kv.2).Nodup

instance aclEntriesUniqueDec (b : NetworkAclBackend) :
    Decidable (aclEntriesUnique b) := by
  unfold aclEntriesUnique
  infer_instance

/-- The duplicate test of create_network_acl_entry, read as key membership. -/
theorem any_key_match_iff (entries : List NetworkAclEntry) (eg r : String) :
    entries.any (fun e => e.egress == eg && e.rule_number == r) = true ↔
    (eg, r) ∈ entries.map fun e => (e.egress, e.rule_number) := by
  simp [List.any_eq_true, Prod.ext_iff]

theorem create_network_acl_entry_preserves (a r pr ac eg ci : String)
    (ic it pf pt : Option Nat) (s : NetworkAclBackend)
    (h : aclEntriesUnique s) :
    aclEntriesUnique (create_network_acl_entry a r pr ac eg ci ic it pf pt s).2 := by
  cases hlk : dictLookup s.network_acls a with
  | none => simpa [create_network_acl_entry, hlk] using h
  | some acl =>
    by_cases hany : acl.network_acl_entries.any
        (fun e => e.egress == eg && e.rule_number == r) = true
    · simpa [create_network_acl_entry, hlk, hany] using h
    · intro kv hkv
      simp [create_network_acl_entry, hlk, hany] at hkv
      rcases mem_dictInsert hkv with heq | hkv2
      · subst heq
        have hold : (aclEntryKeys acl).Nodup := h _ (dictLookup_mem hlk)
        have hnot : (eg, r) ∉ acl.network_acl_entries.map
            fun e => (e.egress, e.rule_number) := by
          rw [← any_key_match_iff]
          simpa using hany
        simp only [aclEntryKeys, List.map_append, List.map_cons, List.map_nil]
        rw [List.nodup_append]
        refine ⟨hold, List.nodup_singleton _, ?_⟩
        intro x hx hx1
        simp at hx1
        subst hx1
        exact hnot hx
      · exact h _ hkv2

theorem delete_network_acl_entry_preserves (a r eg : String)
    (s : NetworkAclBackend) (h : aclEntriesUnique s) :
    aclEntriesUnique (delete_network_acl_entry a r eg s).2 := by
  cases hlk : dictLookup s.network_acls a with
  | none => simpa [delete_network_acl_entry, hlk] using h
  | some acl =>
    cases hf : acl.network_acl_entries.find?
        (fun e => e.egress == eg && e.rule_number == r) with
    | none => simpa [delete_network_acl_entry, hlk, hf] using h
    | some entry =>
      intro kv hkv
      simp [delete_network_acl_entry, hlk, hf] at hkv
      rcases mem_dictInsert hkv with heq | hkv2
      · subst heq
        have hold : (aclEntryKeys acl).Nodup := h _ (dictLookup_mem hlk)
        have hsub := List.eraseP_sublist (l := acl.network_acl_entries)
          (p := fun e => e.egress == eg && e.rule_number == r)
        exact List.Nodup.sublist (hsub.map _) hold
      · exact h _ hkv2

theorem replace_network_acl_entry_preserves (a r pr ac eg ci : String)
    (ic it pf pt : Option Nat) (s : NetworkAclBackend)
    (h : aclEntriesUnique s) :
    aclEntriesUnique (replace_network_acl_entry a r pr ac eg ci ic it pf pt s).2 := by
  unfold replace_network_acl_entry
  cases hd : delete_network_acl_entry a r eg s with
  | mk res s1 =>
    cases res with
    | error e =>
      have := delete_network_acl_entry_preserves a r eg s h
      rw [hd] at this
      simpa using this
    | ok entry =>
      have h1 := delete_network_acl_entry_preserves a r eg s h
      rw [hd] at h1
      simpa using create_network_acl_entry_preserves a r pr ac eg ci ic it pf pt s1 h1

theorem create_network_acl_preserves (network_acl_id vpc_id : String)
    (tags : List (String × String)) (default : Bool) (s : NetworkAclBackend)
    (h : aclEntriesUnique s) :
    aclEntriesUnique (create_network_acl network_acl_id vpc_id tags default s).2 := by
  by_cases hvpc : s.vpcs.contains vpc_id = true
  · cases default with
    | false =>
      intro kv hkv
      have hmem : vpc_id ∈ s.vpcs := by simpa using hvpc
      simp [create_network_acl, hmem] at hkv
      rcases mem_dictInsert hkv with heq | hkv2
      · subst heq
        simp [aclEntryKeys]
      · exact h _ hkv2
    | true =>
      rw [create_network_acl_default_eq network_acl_id vpc_id tags s hvpc]
      intro kv hkv
      simp at hkv
      rcases mem_dictInsert hkv with heq | hkv2
      · subst heq
        simp [aclEntryKeys, defaultAcl, defaultEntries4, defaultEntry]
      · exact h _ hkv2
  · have hmem : ¬ vpc_id ∈ s.vpcs := by simpa using hvpc
    simpa [create_network_acl, hmem] using h

theorem delete_network_acl_preserves (network_acl_id : String)
    (s : NetworkAclBackend) (h : aclEntriesUnique s) :
    aclEntriesUnique (delete_network_acl network_acl_id s).2 := by
  cases hlk : dictLookup s.network_acls network_acl_id with
  | none => simpa [delete_network_acl, hlk] using h
  | some acl =>
    intro kv hkv
    simp [delete_network_acl, hlk] at hkv
    exact h _ (mem_dictPop hkv)

/-- Every modelled NetworkAclBackend call preserves the invariant. -/
theorem aclStep_preserves (op : AclOp) (s : NetworkAclBackend)
    (h : aclEntriesUnique s) : aclEntriesUnique (aclStep op s).2 := by
  cases op with
  | createNetworkAcl a v t d =>
    have := create_network_acl_preserves a v t d s h
    cases hc : create_network_acl a v t d s with
    | mk res s2 => rw [hc] at this; cases res <;> simpa [aclStep, dropResult, hc] using this
  | deleteNetworkAcl a =>
    have := delete_network_acl_preserves a s h
    cases hc : delete_network_acl a s with
    | mk res s2 => rw [hc] at this; cases res <;> simpa [aclStep, dropResult, hc] using this
  | getNetworkAcl a =>
    cases hg : get_network_acl s a <;> simpa [aclStep, dropResult, hg] using h
  | createEntry a r pr ac eg ci ic it pf pt =>
    have := create_network_acl_entry_preserves a r pr ac eg ci ic it pf pt s h
    cases hc : create_network_acl_entry a r pr ac eg ci ic it pf pt s with
    | mk res s2 => rw [hc] at this; cases res <;> simpa [aclStep, dropResult, hc] using this
  | deleteEntry a r eg =>
    have := delete_network_acl_entry_preserves a r eg s h
    cases hc : delete_network_acl_entry a r eg s with
    | mk res s2 => rw [hc] at this; cases res <;> simpa [aclStep, dropResult, hc] using this
  | replaceEntry a r pr ac eg ci ic it pf pt =>
    have := replace_network_acl_entry_preserves a r pr ac eg ci ic it pf pt s h
    cases hc : replace_network_acl_entry a r pr ac eg ci ic it pf pt s with
    | mk res s2 => rw [hc] at this; cases res <;> simpa [aclStep, dropResult, hc] using this
  | replaceAssociation nid aid tid =>
    cases hf : s.network_acls.find?
        (fun kv => (dictLookup kv.2.associations aid).isSome) with
    | none =>
      simpa [aclStep, dropResult, replace_network_acl_association, hf] using h
    | some kv0 =>
      obtain ⟨aclKey, default_acl⟩ := kv0
      have hdn : (aclEntryKeys default_acl).Nodup :=
        h _ (List.mem_of_find?_eq_some hf)
      cases hlk : dictLookup (dictInsert s.network_acls aclKey { default_acl with associations := dictPop default_acl.associations aid }) tid with
      | none =>
        intro kv hkv
        simp [aclStep, dropResult, replace_network_acl_association, hf, hlk] at hkv
        rcases mem_dictInsert hkv with heq | hkv2
        · subst heq; exact hdn
        · exact h _ hkv2
      | some new_acl =>
        have hnn : (aclEntryKeys new_acl).Nodup := by
          rcases mem_dictInsert (dictLookup_mem hlk) with heq | hmem2
          · rw [show new_acl = { default_acl with associations := dictPop default_acl.associations aid } from congrArg Prod.snd heq]
            exact hdn
          · exact h _ hmem2
        intro kv hkv
        simp [aclStep, dropResult, replace_network_acl_association, hf, hlk] at hkv
        rcases mem_dictInsert hkv with heq | hkv2
        · subst heq; exact hnn
        · rcases mem_dictInsert hkv2 with heq2 | hkv3
          · subst heq2; exact hdn
          · exact h _ hkv3
  | associateDefault aid sid vid =>
    cases hf : s.network_acls.find?
        (fun kv => kv.2.default != "" && kv.2.vpc_id == vid) with
    | none =>
      simpa [aclStep, dropResult, associate_default_network_acl_with_subnet,
        hf] using h
    | some kv0 =>
      obtain ⟨aclKey, acl⟩ := kv0
      have hdn : (aclEntryKeys acl).Nodup := h _ (List.mem_of_find?_eq_some hf)
      intro kv hkv
      simp [aclStep, dropResult, associate_default_network_acl_with_subnet,
        hf] at hkv
      rcases mem_dictInsert hkv with heq | hkv2
      · subst heq; exact hdn
      · exact h _ hkv2

/-- Sequences of calls preserve the invariant. -/
theorem aclRun_preserves (ops : List AclOp) (s : NetworkAclBackend)
    (h : aclEntriesUnique s) : aclEntriesUnique (aclRun ops s) := by
  induction ops generalizing s with
  | nil => simpa [aclRun] using h
  | cons op rest ih => exact ih _ (aclStep_preserves op s h)

/-- C10: every state reached by a sequence of modelled calls from an empty
ACL store satisfies the entry-uniqueness invariant; create_network_acl_entry
refuses a duplicate (egress, rule_number) pair with the already-exists
error, leaving the state untouched; and replace_network_acl_entry first
removes the matching entry (it is exactly delete followed by create when
the delete finds one) and preserves the invariant. -/
theorem C10_acl_entry_keys_unique :
    (∀ (vpcs : List String) (ops : List AclOp),
      aclEntriesUnique (aclRun ops { network_acls := [], vpcs := vpcs })) ∧
    (∀ (s : NetworkAclBackend) (acl : NetworkAcl)
      (a r pr ac eg ci : String) (ic it pf pt : Option Nat),
      dictLookup s.network_acls a = some acl →
      (eg, r) ∈ acl.network_acl_entries.map (fun e => (e.egress, e.rule_number)) →
      create_network_acl_entry a r pr ac eg ci ic it pf pt s =
        (.error (.NetworkAclEntryAlreadyExistsError r), s)) ∧
    (∀ (s : NetworkAclBackend) (entry : NetworkAclEntry)
      (a r pr ac eg ci : String) (ic it pf pt : Option Nat),
      (delete_network_acl_entry a r eg s).1 = .ok entry →
      replace_network_acl_entry a r pr ac eg ci ic it pf pt s =
        create_network_acl_entry a r pr ac eg ci ic it pf pt
          (delete_network_acl_entry a r eg s).2) ∧
    (∀ (s : NetworkAclBackend) (a r pr ac eg ci : String)
      (ic it pf pt : Option Nat), aclEntriesUnique s →
      aclEntriesUnique (replace_network_acl_entry a r pr ac eg ci ic it pf pt s).2) := by
  refine ⟨?_, ?_, ?_, ?_⟩
  · intro vpcs ops
    apply aclRun_preserves
    intro kv hkv
    simp at hkv
  · intro s acl a r pr ac eg ci ic it pf pt hlk hmem
    have hany : acl.network_acl_entries.any
        (fun e => e.egress == eg && e.rule_number == r) = true :=
      (any_key_match_iff _ _ _).mpr hmem
    simp [create_network_acl_entry, hlk, hany]
  · intro s entry a r pr ac eg ci ic it pf pt hok
    unfold replace_network_acl_entry
    cases hd : delete_network_acl_entry a r eg s with
    | mk res s1 =>
      cases res with
      | error e => rw [hd] at hok; simp at hok
      | ok e2 => simp [hd]
  · intro s a r pr ac eg ci ic it pf pt h
    exact replace_network_acl_entry_preserves a r pr ac eg ci ic it pf pt s h

/-- The state after creating one default ACL on the example backend. -/
def egAclState : NetworkAclBackend := (create_network_acl "acl-1" "vpc-1" [] true egACL).2

/-- Witness for C10: creating a duplicate of the default allow-100 egress
entry is refused and the reachable example state is invariant-clean. -/
theorem C10_acl_entry_keys_unique_witness :
    aclEntriesUnique (aclRun [.createNetworkAcl "acl-1" "vpc-1" [] true]
      { network_acls := [], vpcs := ["vpc-1"] }) ∧
    create_network_acl_entry "acl-1" "100" "6" "allow" "true" "10.0.0.0/8"
      none none none none egAclState =
      (.error (.NetworkAclEntryAlreadyExistsError "100"), egAclState) :=
  ⟨C10_acl_entry_keys_unique.1 ["vpc-1"]
      [.createNetworkAcl "acl-1" "vpc-1" [] true],
    C10_acl_entry_keys_unique.2.1 egAclState (defaultAcl "acl-1" "vpc-1" [])
      "acl-1" "100" "6" "allow" "true" "10.0.0.0/8" none none none none
      (by decide) (by decide)⟩

/-! ## C3: the 50-tag ceiling -/

/-- The tag-limit invariant: no stored pipeline carries more than 50 tags. -/
def cpTagLimitInv (s : CodePipelineBackend) : Prop :=
  ∀ kv ∈ s.pipelines, kv.2.tags.length ≤ 50

/-- A passing validate_tags bounds the sum of old and new tag counts. -/
theorem validate_tags_none_le {cp : CodePipeline} {tags : List Tag}
    (hv : validate_tags cp tags = none) : cp.tags.length + tags.length ≤ 50 := by
  unfold validate_tags at hv
  cases hfind : tags.find? (fun t => pyStartsWith t.key "aws:") with
  | some t => rw [hfind] at hv; simp at hv
  | none =>
    rw [hfind] at hv
    by_cases hgt : cp.tags.length + tags.length > 50
    · rw [if_pos hgt] at hv; simp at hv
    · omega

theorem create_pipeline_preserves_tag_limit (now : Nat) (p : Pipeline)
    (tags : List Tag) (s : CodePipelineBackend) (h : cpTagLimitInv s) :
    cpTagLimitInv (create_pipeline now p tags s).2 := by
  by_cases h1 : (dictLookup s.pipelines p.name).isSome
  · simpa [create_pipeline, h1] using h
  · by_cases h2 : roleTrusted s.roles p.roleArn
    · by_cases h3 : p.stages.length < 2
      · simpa [create_pipeline, h1, h2, h3] using h
      · by_cases h4 : tags.isEmpty
        · intro kv hkv
          simp [create_pipeline, h1, h2, h3, h4] at hkv
          rcases mem_dictInsert hkv with heq | hkv2
          · subst heq; simp [CodePipeline.init]
          · exact h _ hkv2
        · cases hv : validate_tags (CodePipeline.init s.region now p) tags with
          | some e =>
            intro kv hkv
            simp [create_pipeline, h1, h2, h3, h4, hv] at hkv
            rcases mem_dictInsert hkv with heq | hkv2
            · subst heq; simp [CodePipeline.init]
            · exact h _ hkv2
          | none =>
            intro kv hkv
            simp [create_pipeline, h1, h2, h3, h4, hv] at hkv
            rcases mem_dictInsert hkv with heq | hkv2
            · subst heq
              have hle := validate_tags_none_le hv
              have hup := tagsUpdate_length_le
                (CodePipeline.init s.region now p).tags tags
              simp only [CodePipeline.init] at hle hup ⊢
              simp at hle hup ⊢
              omega
            · rcases mem_dictInsert hkv2 with heq2 | hkv3
              · subst heq2; simp [CodePipeline.init]
              · exact h _ hkv3
    · simpa [create_pipeline, h1, h2] using h

theorem tag_resource_preserves_tag_limit (arn : String) (tags : List Tag)
    (s : CodePipelineBackend) (h : cpTagLimitInv s) :
    cpTagLimitInv (tag_resource arn tags s).2 := by
  cases hlk : dictLookup s.pipelines (lastArnPart arn) with
  | none => simpa [tag_resource, hlk] using h
  | some cp =>
    cases hv : validate_tags cp tags with
    | some e => simpa [tag_resource, hlk, hv] using h
    | none =>
      intro kv hkv
      simp [tag_resource, hlk, hv] at hkv
      rcases mem_dictInsert hkv with heq | hkv2
      · subst heq
        have hle := validate_tags_none_le hv
        have hup := tagsUpdate_length_le cp.tags tags
        show (tagsUpdate cp.tags tags).length ≤ 50
        omega
      · exact h _ hkv2

theorem untag_resource_preserves_tag_limit (arn : String) (keys : List String)
    (s : CodePipelineBackend) (h : cpTagLimitInv s) :
    cpTagLimitInv (untag_resource arn keys s).2 := by
  cases hlk : dictLookup s.pipelines (lastArnPart arn) with
  | none => simpa [untag_resource, hlk] using h
  | some cp =>
    intro kv hkv
    simp [untag_resource, hlk] at hkv
    rcases mem_dictInsert hkv with heq | hkv2
    · subst heq
      have hcp : cp.tags.length ≤ 50 := h (lastArnPart arn, cp) (dictLookup_mem hlk)
      have hpop := popFold_length_le keys cp.tags
      show (keys.foldl (fun acc k => dictPop acc k) cp.tags).length ≤ 50
      omega
    · exact h _ hkv2

theorem update_pipeline_preserves_tag_limit (now : Nat) (q : Pipeline)
    (s : CodePipelineBackend) (h : cpTagLimitInv s) :
    cpTagLimitInv (update_pipeline now q s).2 := by
  cases hlk : dictLookup s.pipelines q.name with
  | none => simpa [update_pipeline, hlk] using h
  | some cp =>
    cases hv : cp.pipeline.version with
    | none => simpa [update_pipeline, hlk, hv] using h
    | some v =>
      intro kv hkv
      simp [update_pipeline, hlk, hv] at hkv
      rcases mem_dictInsert hkv with heq | hkv2
      · subst heq
        exact h (q.name, cp) (dictLookup_mem hlk)
      · exact h _ hkv2

/-- Every modelled CodePipelineBackend call preserves the tag limit. -/
theorem cpStep_preserves_tag_limit (op : CPOp) (s : CodePipelineBackend)
    (h : cpTagLimitInv s) : cpTagLimitInv (cpStep op s).2 := by
  cases op with
  | createPipeline now p tags =>
    have := create_pipeline_preserves_tag_limit now p tags s h
    cases hc : create_pipeline now p tags s with
    | mk res s2 => rw [hc] at this; cases res <;> simpa [cpStep, dropResult, hc] using this
  | getPipeline name =>
    cases hlk : dictLookup s.pipelines name <;>
      simpa [cpStep, dropResult, get_pipeline, hlk] using h
  | updatePipeline now q =>
    have := update_pipeline_preserves_tag_limit now q s h
    cases hc : update_pipeline now q s with
    | mk res s2 => rw [hc] at this; cases res <;> simpa [cpStep, dropResult, hc] using this
  | deletePipeline name =>
    intro kv hkv
    simp [cpStep, dropResult, delete_pipeline] at hkv
    exact h _ (mem_dictPop hkv)
  | listPipelines => simpa [cpStep, dropResult, list_pipelines] using h
  | listTagsForResource arn =>
    cases hlk : dictLookup s.pipelines (lastArnPart arn) <;>
      simpa [cpStep, dropResult, list_tags_for_resource, hlk] using h
  | tagResource arn tags =>
    have := tag_resource_preserves_tag_limit arn tags s h
    cases hc : tag_resource arn tags s with
    | mk res s2 => rw [hc] at this; cases res <;> simpa [cpStep, dropResult, hc] using this
  | untagResource arn keys =>
    have := untag_resource_preserves_tag_limit arn keys s h
    cases hc : untag_resource arn keys s with
    | mk res s2 => rw [hc] at this; cases res <;> simpa [cpStep, dropResult, hc] using this

/-- Sequences of calls preserve the tag limit. -/
theorem cpRun_preserves_tag_limit (ops : List CPOp) (s : CodePipelineBackend)
    (h : cpTagLimitInv s) : cpTagLimitInv (cpRun ops s) := by
  induction ops generalizing s with
  | nil => simpa [cpRun] using h
  | cons op rest ih => exact ih _ (cpStep_preserves_tag_limit op s h)

/-- C3 as amended: after any sequence of calls from a tag-bounded state no
pipeline exceeds 50 tags; a tag_resource call on an existing pipeline with
no "aws:"-prefixed key that would push the tag dict beyond 50 raises
TooManyTags and returns the state untouched; and a call holding an
"aws:"-prefixed key raises InvalidTags instead (also leaving the state
untouched), even when it would exceed the ceiling too. -/
theorem C3_tag_ceiling_amended :
    (∀ (ops : List CPOp) (s : CodePipelineBackend), cpTagLimitInv s →
      cpTagLimitInv (cpRun ops s)) ∧
    (∀ (arn : String) (tags : List Tag) (s : CodePipelineBackend)
      (cp : CodePipeline), dictLookup s.pipelines (lastArnPart arn) = some cp →
      tags.find? (fun t => pyStartsWith t.key "aws:") = none →
      (tagsUpdate cp.tags tags).length > 50 →
      tag_resource arn tags s = (.error (.TooManyTagsException cp.arn), s)) ∧
    (∀ (arn : String) (tags : List Tag) (s : CodePipelineBackend)
      (cp : CodePipeline) (t : Tag),
      dictLookup s.pipelines (lastArnPart arn) = some cp →
      tags.find? (fun t2 => pyStartsWith t2.key "aws:") = some t →
      tag_resource arn tags s =
        (.error (.InvalidTagsException
          ("Not allowed to modify system tags. System tags start with 'aws:'. " ++
            "msg=[Caller is an end user and not allowed to mutate system tags]")),
          s)) := by
  refine ⟨cpRun_preserves_tag_limit, ?_, ?_⟩
  · intro arn tags s cp hlk hfind hgt
    have hsum : cp.tags.length + tags.length > 50 := by
      have := tagsUpdate_length_le cp.tags tags
      omega
    simp [tag_resource, hlk, validate_tags, hfind, hsum]
  · intro arn tags s cp t hlk hfind
    simp [tag_resource, hlk, validate_tags, hfind]

/-- The example backend after one successful create of "pipe". -/
def egS1 : CodePipelineBackend := (create_pipeline 0 egPipeline [] egCP).2

/-- The stored entity that create left behind. -/
def egStored : CodePipeline := CodePipeline.init "us-east-1" 0 egPipeline

/-- The arn of the example pipeline. -/
def egArn : String := pipelineArn "us-east-1" "pipe"

/-- 51 distinct ordinary tags plus one "aws:"-prefixed tag. -/
def egTags52 : List Tag :=
  ((List.range 51).map fun i => { key := "k" ++ toString i, value := "v" }) ++
    [{ key := "aws:z", value := "v" }]

/-- 51 distinct ordinary tags. -/
def egTags51 : List Tag :=
  (List.range 51).map fun i => { key := "k" ++ toString i, value := "v" }

/-- Counterexample to C3 as stated: on a pipeline with no tags, this
tag_resource call would raise the tag count to 52 > 50, yet it raises
InvalidTags (the system-prefix error) rather than the claimed
LimitExceeded/TooManyTags error -- the state is nevertheless unchanged. -/
theorem C3_tag_ceiling_counterexample :
    dictLookup egS1.pipelines (lastArnPart egArn) = some egStored ∧
    (tagsUpdate egStored.tags egTags52).length > 50 ∧
    tag_resource egArn egTags52 egS1 =
      (.error (.InvalidTagsException
        ("Not allowed to modify system tags. System tags start with 'aws:'. " ++
          "msg=[Caller is an end user and not allowed to mutate system tags]")),
        egS1) ∧
    CPError.InvalidTagsException
        ("Not allowed to modify system tags. System tags start with 'aws:'. " ++
          "msg=[Caller is an end user and not allowed to mutate system tags]") ≠
      CPError.TooManyTagsException egStored.arn := by
  refine ⟨by decide, by decide, by decide, by decide⟩

/-- Witness for the amended C3: 51 plain tags on the freshly created
pipeline do raise TooManyTags with the state unchanged. -/
theorem C3_tag_ceiling_amended_witness :
    tag_resource egArn egTags51 egS1 =
      (.error (.TooManyTagsException egStored.arn), egS1) :=
  C3_tag_ceiling_amended.2.1 egArn egTags51 egS1 egStored (by decide) (by decide)
    (by decide)

/-! ## C1: what an error can leave behind -/

/-- A failing CodePipelineBackend call leaves the state as it was, except
that create_pipeline failing in validate_tags has already committed the
new (tagless) entity to the store. -/
theorem cpStep_error_state (op : CPOp) (c c2 : CodePipelineBackend)
    (e : CPError) (h : cpStep op c = (.error e, c2)) :
    c2 = c ∨ ∃ now p tags, op = .createPipeline now p tags ∧
      c2 = { c with pipelines := dictInsert c.pipelines p.name (CodePipeline.init c.region now p) } := by
  cases op with
  | createPipeline now p tags =>
    by_cases h1 : (dictLookup c.pipelines p.name).isSome
    · simp [cpStep, dropResult, create_pipeline, h1] at h
      exact Or.inl h.2.symm
    · by_cases h2 : roleTrusted c.roles p.roleArn
      · by_cases h3 : p.stages.length < 2
        · simp [cpStep, dropResult, create_pipeline, h1, h2, h3] at h
          exact Or.inl h.2.symm
        · by_cases h4 : tags.isEmpty
          · simp [cpStep, dropResult, create_pipeline, h1, h2, h3, h4] at h
          · cases hv : validate_tags (CodePipeline.init c.region now p) tags with
            | some e2 =>
              simp [cpStep, dropResult, create_pipeline, h1, h2, h3, h4, hv] at h
              exact Or.inr ⟨now, p, tags, rfl, h.2.symm⟩
            | none =>
              simp [cpStep, dropResult, create_pipeline, h1, h2, h3, h4, hv] at h
      · simp [cpStep, dropResult, create_pipeline, h1, h2] at h
        exact Or.inl h.2.symm
  | getPipeline name =>
    cases hlk : dictLookup c.pipelines name with
    | none =>
      simp [cpStep, dropResult, get_pipeline, hlk] at h
      exact Or.inl h.2.symm
    | some cp => simp [cpStep, dropResult, get_pipeline, hlk] at h
  | updatePipeline now q =>
    cases hlk : dictLookup c.pipelines q.name with
    | none =>
      simp [cpStep, dropResult, update_pipeline, hlk] at h
      exact Or.inl h.2.symm
    | some cp =>
      cases hv : cp.pipeline.version with
      | none =>
        simp [cpStep, dropResult, update_pipeline, hlk, hv] at h
        exact Or.inl h.2.symm
      | some v => simp [cpStep, dropResult, update_pipeline, hlk, hv] at h
  | deletePipeline name => simp [cpStep, dropResult, delete_pipeline] at h
  | listPipelines => simp [cpStep, dropResult, list_pipelines] at h
  | listTagsForResource arn =>
    cases hlk : dictLookup c.pipelines (lastArnPart arn) with
    | none =>
      simp [cpStep, dropResult, list_tags_for_resource, hlk] at h
      exact Or.inl h.2.symm
    | some cp => simp [cpStep, dropResult, list_tags_for_resource, hlk] at h
  | tagResource arn tags =>
    cases hlk : dictLookup c.pipelines (lastArnPart arn) with
    | none =>
      simp [cpStep, dropResult, tag_resource, hlk] at h
      exact Or.inl h.2.symm
    | some cp =>
      cases hv : validate_tags cp tags with
      | some e2 =>
        simp [cpStep, dropResult, tag_resource, hlk, hv] at h
        exact Or.inl h.2.symm
      | none => simp [cpStep, dropResult, tag_resource, hlk, hv] at h
  | untagResource arn keys =>
    cases hlk : dictLookup c.pipelines (lastArnPart arn) with
    | none =>
      simp [cpStep, dropResult, untag_resource, hlk] at h
      exact Or.inl h.2.symm
    | some cp => simp [cpStep, dropResult, untag_resource, hlk] at h

/-- A failing send leaves the SES state as it was, except that the
source-unverified rejection has already incremented the rejection counter. -/
theorem sesStep_error_state (parseaddr : String → String)
    (is_valid_address : String → Option String) (op : SESOp)
    (s s2 : SESBackend) (e : SESError)
    (h : sesStep parseaddr is_valid_address op s = (.error e, s2)) :
    s2 = s ∨
    s2 = { s with rejected_messages_count := s.rejected_messages_count + 1 } := by
  cases op with
  | sendEmail message_id source subject body destinations =>
    by_cases hgt : recipientCount destinations > RECIPIENT_LIMIT
    · simp [sesStep, dropResult, send_email, hgt] at h
      exact Or.inl h.2.symm
    · by_cases hver : is_verified_address parseaddr s source
      · cases hinv : firstInvalidAddress is_valid_address
            (source :: (destinations.map Prod.snd).flatten) with
        | some m =>
          simp [sesStep, dropResult, send_email, hgt, hver, hinv] at h
          exact Or.inl h.2.symm
        | none => simp [sesStep, dropResult, send_email, hgt, hver, hinv] at h
      · simp [sesStep, dropResult, send_email, hgt, hver] at h
        exact Or.inr h.2.symm
  | sendTemplatedEmail message_id source template template_data destinations =>
    by_cases hgt : recipientCount destinations > RECIPIENT_LIMIT
    · simp [sesStep, dropResult, send_templated_email, hgt] at h
      exact Or.inl h.2.symm
    · by_cases hver : is_verified_address parseaddr s source
      · cases hinv : firstInvalidAddress is_valid_address
            (source :: (destinations.map Prod.snd).flatten) with
        | some m =>
          simp [sesStep, dropResult, send_templated_email, hgt, hver, hinv] at h
          exact Or.inl h.2.symm
        | none =>
          cases ht0 : template.head? with
          | none =>
            simp [sesStep, dropResult, send_templated_email, hgt, hver, hinv,
              ht0] at h
            exact Or.inl h.2.symm
          | some t0 =>
            by_cases htpl : (dictLookup s.templates t0).isNone
            · simp [sesStep, dropResult, send_templated_email, hgt, hver, hinv,
                ht0, htpl] at h
              exact Or.inl h.2.symm
            · simp [sesStep, dropResult, send_templated_email, hgt, hver, hinv,
                ht0, htpl] at h
      · simp [sesStep, dropResult, send_templated_email, hgt, hver] at h
        exact Or.inr h.2.symm

/-- A failing delete_network_acl_entry leaves the state as it was. -/
theorem delete_network_acl_entry_error_state (a r eg : String)
    (s s2 : NetworkAclBackend) (e : EC2Error)
    (h : delete_network_acl_entry a r eg s = (.error e, s2)) : s2 = s := by
  cases hlk : dictLookup s.network_acls a with
  | none =>
    simp [delete_network_acl_entry, hlk] at h
    exact h.2.symm
  | some acl =>
    cases hf : acl.network_acl_entries.find?
        (fun e2 => e2.egress == eg && e2.rule_number == r) with
    | none =>
      simp [delete_network_acl_entry, hlk, hf] at h
      exact h.2.symm
    | some entry => simp [delete_network_acl_entry, hlk, hf] at h

/-- Under key uniqueness, once the matching entry is erased no entry with
the same (egress, rule_number) key is left. -/
theorem eraseP_key_no_match {l : List NetworkAclEntry} (eg r : String)
    (hnd : (l.map fun e => (e.egress, e.rule_number)).Nodup) :
    ((l.eraseP (fun e => e.egress == eg && e.rule_number == r)).any
      (fun e => e.egress == eg && e.rule_number == r)) = false := by
  induction l with
  | nil => simp
  | cons hd tl ih =>
    rw [List.map_cons, List.nodup_cons] at hnd
    by_cases hp : (hd.egress == eg && hd.rule_number == r) = true
    · simp only [List.eraseP_cons, hp, cond_true]
      have hkey : (hd.egress, hd.rule_number) = (eg, r) := by
        simp at hp
        simp [hp.1, hp.2]
      by_contra hany
      rw [Bool.not_eq_false] at hany
      have hmem := (any_key_match_iff tl eg r).mp hany
      rw [← hkey] at hmem
      exact hnd.1 hmem
    · have hp2 : (hd.egress == eg && hd.rule_number == r) = false := by
        simpa using hp
      simp only [List.eraseP_cons, hp2, cond_false]
      rw [List.any_cons]
      simp only [hp2, Bool.false_or]
      exact ih hnd.2

/-- Under the entry-uniqueness invariant, a failing NetworkAclBackend call
leaves the state exactly as it was, except that
replace_network_acl_association raising on an absent target ACL has
already deleted the old association from the ACL that held it. -/
theorem aclStep_error_state (op : AclOp) (a a2 : NetworkAclBackend)
    (e : EC2Error) (hinv : aclEntriesUnique a)
    (h : aclStep op a = (.error e, a2)) :
    a2 = a ∨
    ∃ new_assoc_id association_id network_acl_id aclKey default_acl,
      op = .replaceAssociation new_assoc_id association_id network_acl_id ∧
      a.network_acls.find?
        (fun kv => (dictLookup kv.2.associations association_id).isSome) =
        some (aclKey, default_acl) ∧
      a2 = dropAssociation a aclKey default_acl association_id := by
  cases op with
  | createNetworkAcl network_acl_id vpc_id tags default =>
    by_cases hvpc : a.vpcs.contains vpc_id = true
    · cases default with
      | true =>
        rw [show aclStep (.createNetworkAcl network_acl_id vpc_id tags true) a =
          dropResult (create_network_acl network_acl_id vpc_id tags true a) from rfl,
          create_network_acl_default_eq network_acl_id vpc_id tags a hvpc] at h
        simp [dropResult] at h
      | false =>
        have hmem : vpc_id ∈ a.vpcs := by simpa using hvpc
        simp [aclStep, dropResult, create_network_acl, hmem] at h
    · have hmem : ¬ vpc_id ∈ a.vpcs := by simpa using hvpc
      simp [aclStep, dropResult, create_network_acl, hmem] at h
      exact Or.inl h.2.symm
  | deleteNetworkAcl network_acl_id =>
    cases hlk : dictLookup a.network_acls network_acl_id with
    | none =>
      simp [aclStep, dropResult, delete_network_acl, hlk] at h
      exact Or.inl h.2.symm
    | some acl => simp [aclStep, dropResult, delete_network_acl, hlk] at h
  | getNetworkAcl network_acl_id =>
    cases hg : get_network_acl a network_acl_id <;>
      simp [aclStep, dropResult, hg] at h
    exact Or.inl h.2.symm
  | createEntry na r pr ac eg ci ic it pf pt =>
    cases hlk : dictLookup a.network_acls na with
    | none =>
      simp [aclStep, dropResult, create_network_acl_entry, hlk] at h
      exact Or.inl h.2.symm
    | some acl =>
      by_cases hany : acl.network_acl_entries.any
          (fun e2 => e2.egress == eg && e2.rule_number == r) = true
      · simp [aclStep, dropResult, create_network_acl_entry, hlk, hany] at h
        exact Or.inl h.2.symm
      · simp [aclStep, dropResult, create_network_acl_entry, hlk, hany] at h
  | deleteEntry na r eg =>
    cases hc : delete_network_acl_entry na r eg a with
    | mk res s1 =>
      cases res with
      | error e2 =>
        simp [aclStep, dropResult, hc] at h
        refine Or.inl ?_
        rw [h.2.symm]
        exact delete_network_acl_entry_error_state na r eg a s1 e2 hc
      | ok entry => simp [aclStep, dropResult, hc] at h
  | replaceEntry na r pr ac eg ci ic it pf pt =>
    cases hc : delete_network_acl_entry na r eg a with
    | mk res s1 =>
      cases res with
      | error e2 =>
        simp [aclStep, dropResult, replace_network_acl_entry, hc] at h
        refine Or.inl ?_
        rw [h.2.symm]
        exact delete_network_acl_entry_error_state na r eg a s1 e2 hc
      | ok entry =>
        cases hlk : dictLookup a.network_acls na with
        | none => simp [delete_network_acl_entry, hlk] at hc
        | some acl =>
          cases hf : acl.network_acl_entries.find?
              (fun e2 => e2.egress == eg && e2.rule_number == r) with
          | none => simp [delete_network_acl_entry, hlk, hf] at hc
          | some entry2 =>
            have hc2 := hc
            simp [delete_network_acl_entry, hlk, hf] at hc2
            obtain ⟨-, hs1⟩ := hc2
            have hnd : (aclEntryKeys acl).Nodup := hinv _ (dictLookup_mem hlk)
            have hnomatch := eraseP_key_no_match (l := acl.network_acl_entries)
              eg r hnd
            rw [show aclStep (.replaceEntry na r pr ac eg ci ic it pf pt) a =
              dropResult (replace_network_acl_entry na r pr ac eg ci ic it pf pt a) from rfl] at h
            unfold replace_network_acl_entry at h
            rw [hc, ← hs1] at h
            simp [create_network_acl_entry, dictLookup_dictInsert, hnomatch,
              dropResult] at h
  | replaceAssociation nid aid tid =>
    cases hf : a.network_acls.find?
        (fun kv => (dictLookup kv.2.associations aid).isSome) with
    | none =>
      simp [aclStep, dropResult, replace_network_acl_association, hf] at h
      exact Or.inl h.2.symm
    | some kv0 =>
      obtain ⟨aclKey, default_acl⟩ := kv0
      cases hlk : dictLookup (dictInsert a.network_acls aclKey { default_acl with associations := dictPop default_acl.associations aid }) tid with
      | none =>
        simp [aclStep, dropResult, replace_network_acl_association, hf, hlk] at h
        exact Or.inr ⟨nid, aid, tid, aclKey, default_acl, rfl, hf,
          by rw [← h.2]; rfl⟩
      | some new_acl =>
        simp [aclStep, dropResult, replace_network_acl_association, hf, hlk] at h
  | associateDefault aid sid vid =>
    cases hf : a.network_acls.find?
        (fun kv => kv.2.default != "" && kv.2.vpc_id == vid) with
    | none =>
      simp [aclStep, dropResult, associate_default_network_acl_with_subnet,
        hf] at h
      exact Or.inl h.2.symm
    | some kv0 =>
      obtain ⟨aclKey, acl⟩ := kv0
      simp [aclStep, dropResult, associate_default_network_acl_with_subnet,
        hf] at h

/-- C1 as amended: on every Backend state whose ACL store satisfies the
entry-uniqueness invariant (all reachable states do), a failing Backend
call returns with the state it was given, with three documented
exceptions: the SES sends may have incremented the rejection counter;
create_pipeline failing in tag validation has already committed the new
(tagless) pipeline entity to the store; and
replace_network_acl_association raising on an absent target ACL has
already deleted the old association from the ACL that held it. -/
theorem C1_error_leaves_state_amended (parseaddr : String → String)
    (is_valid_address : String → Option String) (op : BackendOp)
    (s : MotoState) (e : MotoError) (s2 : MotoState)
    (hinv : aclEntriesUnique s.acl)
    (h : motoStep parseaddr is_valid_address op s = (.error e, s2)) :
    s2 = s ∨
    (∃ now p tags, op = .cp (.createPipeline now p tags) ∧
      s2 = { s with cp := { s.cp with pipelines := dictInsert s.cp.pipelines p.name (CodePipeline.init s.cp.region now p) } }) ∨
    (∃ sesop, op = .ses sesop ∧
      s2 = { s with ses := { s.ses with rejected_messages_count := s.ses.rejected_messages_count + 1 } }) ∨
    (∃ new_assoc_id association_id network_acl_id aclKey default_acl,
      op = .acl (.replaceAssociation new_assoc_id association_id network_acl_id) ∧
      s.acl.network_acls.find?
        (fun kv => (dictLookup kv.2.associations association_id).isSome) =
        some (aclKey, default_acl) ∧
      s2 = { s with acl := dropAssociation s.acl aclKey default_acl association_id }) := by
  cases op with
  | cp op =>
    cases hc : cpStep op s.cp with
    | mk res c2 =>
      cases res with
      | ok u => simp [motoStep, hc] at h
      | error ce =>
        simp [motoStep, hc] at h
        rcases cpStep_error_state op s.cp c2 ce hc with h1 | ⟨now, p, tags, hop, h2⟩
        · left
          rw [← h.2, h1]
        · right; left
          exact ⟨now, p, tags, by rw [hop], by rw [← h.2, h2]⟩
  | ses op =>
    cases hc : sesStep parseaddr is_valid_address op s.ses with
    | mk res ses2 =>
      cases res with
      | ok u => simp [motoStep, hc] at h
      | error se =>
        simp [motoStep, hc] at h
        rcases sesStep_error_state parseaddr is_valid_address op s.ses ses2 se hc
          with h1 | h1
        · left
          rw [← h.2, h1]
        · right; right; left
          exact ⟨op, rfl, by rw [← h.2, h1]⟩
  | acl op =>
    cases hc : aclStep op s.acl with
    | mk res acl2 =>
      cases res with
      | ok u => simp [motoStep, hc] at h
      | error ae =>
        simp [motoStep, hc] at h
        rcases aclStep_error_state op s.acl acl2 ae hinv hc with h1 |
          ⟨nid, aid, tid, aclKey, default_acl, hop, hfind, h2⟩
        · left
          rw [← h.2, h1]
        · right; right; right
          exact ⟨nid, aid, tid, aclKey, default_acl, by rw [hop], hfind,
            by rw [← h.2, h2]⟩

/-- The system tag used by the counterexample. -/
def egAwsTag : Tag := { key := "aws:x", value := "v" }

/-- Counterexample to C1 as stated: this create_pipeline call raises the
tag-validation error, yet the pipeline store observed afterwards differs
from the store before the call -- the new pipeline has been committed. -/
theorem C1_error_leaves_state_counterexample :
    (create_pipeline 0 egPipeline [egAwsTag] egCP).1 =
      .error (.InvalidTagsException
        ("Not allowed to modify system tags. System tags start with 'aws:'. " ++
          "msg=[Caller is an end user and not allowed to mutate system tags]")) ∧
    (create_pipeline 0 egPipeline [egAwsTag] egCP).2 ≠ egCP ∧
    dictLookup (create_pipeline 0 egPipeline [egAwsTag] egCP).2.pipelines
      "pipe" = some (CodePipeline.init "us-east-1" 0 egPipeline) :=
  ⟨by decide, by decide, by decide⟩

/-- Witness for the amended C1 at the concrete failing create. -/
theorem C1_error_leaves_state_amended_witness :
    (motoStep id (fun _ => none)
        (.cp (.createPipeline 0 egPipeline [egAwsTag])) egMoto).2 = egMoto ∨
    (∃ now p tags, BackendOp.cp (.createPipeline 0 egPipeline [egAwsTag]) =
        .cp (.createPipeline now p tags) ∧
      (motoStep id (fun _ => none)
        (.cp (.createPipeline 0 egPipeline [egAwsTag])) egMoto).2 =
        { egMoto with cp := { egMoto.cp with pipelines := dictInsert egMoto.cp.pipelines p.name (CodePipeline.init egMoto.cp.region now p) } }) ∨
    (∃ sesop, BackendOp.cp (.createPipeline 0 egPipeline [egAwsTag]) =
        .ses sesop ∧
      (motoStep id (fun _ => none)
        (.cp (.createPipeline 0 egPipeline [egAwsTag])) egMoto).2 =
        { egMoto with ses := { egMoto.ses with rejected_messages_count := egMoto.ses.rejected_messages_count + 1 } }) ∨
    (∃ new_assoc_id association_id network_acl_id aclKey default_acl,
      BackendOp.cp (.createPipeline 0 egPipeline [egAwsTag]) =
        .acl (.replaceAssociation new_assoc_id association_id network_acl_id) ∧
      egMoto.acl.network_acls.find?
        (fun kv => (dictLookup kv.2.associations association_id).isSome) =
        some (aclKey, default_acl) ∧
      (motoStep id (fun _ => none)
        (.cp (.createPipeline 0 egPipeline [egAwsTag])) egMoto).2 =
        { egMoto with acl := dropAssociation egMoto.acl aclKey default_acl association_id }) :=
  C1_error_leaves_state_amended id (fun _ => none)
    (.cp (.createPipeline 0 egPipeline [egAwsTag])) egMoto
    (.cp (.InvalidTagsException
      ("Not allowed to modify system tags. System tags start with 'aws:'. " ++
        "msg=[Caller is an end user and not allowed to mutate system tags]")))
    (motoStep id (fun _ => none)
      (.cp (.createPipeline 0 egPipeline [egAwsTag])) egMoto).2
    (by decide) (by decide)

end Moto
